import Mathlib

/-!
# Verification of the gpt-subtrans batch-translation orchestration engine

This file gives a shallow embedding in Lean 4 of the orchestration core of the
repository (`PySubtitle/SubtitleTranslator.py`) and proves or refutes the frozen
claims about it.  Python exceptions are modelled with `Except`, Python `dict`s
as association lists with first-match lookup, and the external collaborators
(Translation Client, parser, auto-batcher, substitution helpers) as oracle
functions supplied in an environment record, following the interface contracts
in the specification.  Machine-level details that the orchestrator never
observes (timing ranges, token counters) are omitted.
-/

namespace GptSubtrans

/-! ## Python string primitives

`SanitiseSummary` uses `re.sub`, `str.replace` and `str.strip`; we embed those
operations on `List Char`.  `isPySpace` covers the ASCII whitespace class that
Python's `\s` and `str.strip()` recognise (the inputs of interest are ASCII).
-/

def isPySpace (c : Char) : Bool :=
  c = ' ' || c = '\t' || c = '\n' || c = '\r' || c = '\x0b' || c = '\x0c'

/-- The character class `[\s\d:\-]` from the label-stripping regex. -/
def isLabelNoise (c : Char) : Bool :=
  isPySpace c || c.isDigit || c = ':' || c = '-'

/-- Case-insensitive prefix test (the regex is compiled with `re.IGNORECASE`). -/
def startsWithCI : List Char → List Char → Bool
  | [], _ => true
  | _ :: _, [] => false
  | p :: ps, c :: cs => p.toLower = c.toLower && startsWithCI ps cs

/-- `str.strip()`: drop leading and trailing whitespace. -/
def pyStrip (s : List Char) : List Char :=
  ((s.dropWhile isPySpace).reverse.dropWhile isPySpace).reverse

/-- One-or-more repetitions of `(Scene|Batch)[\s\d:\-]*`, anchored at the
start, removed greedily: the effect of
`re.sub(r'^(?:(?:Scene|Batch)[\s\d:\-]*)+', '', summary, flags=re.IGNORECASE)`.
Fuel is the string length; every iteration consumes at least five characters,
so the fuel never runs out before the recursion stops by itself. -/
def stripLabelsAux : Nat → List Char → List Char
  | 0, s => s
  | fuel + 1, s =>
    if startsWithCI ['s', 'c', 'e', 'n', 'e'] s then
      stripLabelsAux fuel ((s.drop 5).dropWhile isLabelNoise)
    else if startsWithCI ['b', 'a', 't', 'c', 'h'] s then
      stripLabelsAux fuel ((s.drop 5).dropWhile isLabelNoise)
    else s

def stripLabels (s : List Char) : List Char :=
  stripLabelsAux s.length s

/-- Python `str.replace(pat, rep)`: replace every non-overlapping occurrence,
left to right.  Fuel is the string length (one unit per consumed character). -/
def replaceAllAux (pat rep : List Char) : Nat → List Char → List Char
  | _, [] => []
  | 0, s => s
  | fuel + 1, c :: rest =>
    if pat ≠ [] ∧ pat.isPrefixOf (c :: rest) then
      rep ++ replaceAllAux pat rep fuel ((c :: rest).drop pat.length)
    else
      c :: replaceAllAux pat rep fuel rest

def replaceAll (pat rep s : List Char) : List Char :=
  replaceAllAux pat rep s.length s

/-- `re.sub(r'^' + re.escape(movie_name) + r'\s*[:\-]\s*', '', summary)`:
remove a literal movie-name prefix followed by optional whitespace, one `:`
or `-` separator, and optional whitespace; leave the string unchanged when
the full pattern does not match. -/
def stripMovieName (movie s : List Char) : List Char :=
  if movie.isPrefixOf s then
    match (s.drop movie.length).dropWhile isPySpace with
    | c :: rest => if c = ':' ∨ c = '-' then rest.dropWhile isPySpace else s
    | [] => s
  else s

/-! ## Python truthiness helpers -/

def truthyN : Option Nat → Bool
  | none => false
  | some n => n ≠ 0

def truthyS : Option String → Bool
  | none => false
  | some s => s ≠ ""

/-- Python `a or b` on optional strings (`None` and `""` are falsy). -/
def pyOrS (a b : Option String) : Option String :=
  if truthyS a then a else b

def truthyLN : Option (List Nat) → Bool
  | none => false
  | some l => l ≠ []

/-! ## SanitiseSummary

Embeds `SubtitleTranslator.SanitiseSummary` (source lines 397-410).  The
`movie_name` option is passed explicitly; the method reads it from
`self.options`. -/

def sanitisePipeline (movieName : Option (List Char)) (s : List Char) : List Char :=
  let s1 := stripLabels s
  let s2 := replaceAll "Summary of the batch".toList [] s1
  let s3 := replaceAll "Summary of the scene".toList [] s2
  match movieName with
  | some m => if m ≠ [] then stripMovieName m s3 else s3
  | none => s3

def sanitiseSummaryL (movieName : Option (List Char)) (summary : Option (List Char)) :
    Option (List Char) :=
  match summary with
  | none => none
  | some s =>
    if s = [] then none
    else
      let s4 := sanitisePipeline movieName s
      if pyStrip s4 = [] then none else some (pyStrip s4)

/-- String-valued wrapper for `SanitiseSummary`. -/
def SanitiseSummary (movieName : Option String) (summary : Option String) :
    Option String :=
  (sanitiseSummaryL (movieName.map String.toList) (summary.map String.toList)).map
    fun l => String.mk l

/-! ## Client selection (`SubtitleTranslator.__init__` / `_create_client`) -/

/-- Substring membership, the effect of Python `s.find(sub) >= 0`. -/
def containsSub (sub : List Char) : List Char → Bool
  | [] => sub.isEmpty
  | c :: rest => sub.isPrefixOf (c :: rest) || containsSub sub rest

inductive ClientKind where
  | instructGPT
  | chatGPT
  deriving DecidableEq, Repr

/-- The configuration surface consumed by the orchestrator (spec §6). -/
structure Options where
  resume : Bool := false
  retranslate : Bool := false
  reparse : Bool := false
  preview : Bool := false
  stop_on_error : Bool := false
  allow_retranslations : Bool := false
  enforce_line_parity : Bool := false
  max_lines : Option Nat := none
  whitespaces_to_newline : Bool := false
  match_partial_words : Bool := false
  max_context_summaries : Option Nat := none
  movie_name : Option String := none
  model : Option String := none
  gpt_model : Option String := none
  deriving Repr

/-- Exceptions that flow through the orchestrator.  `SubtitleError.py` is not
part of the analysed sources; the taxonomy is modelled from the spec (§7):
`Aborted`, `Impossible`, `Failed`, recoverable `TranslationError`s (including
the unmatched-lines variant), plus Python's `ValueError` and generic
`Exception`, which are not `TranslationError`s. -/
inductive PyErr where
  | translationAborted
  | translationImpossible (msg : String)
  | translationFailed (msg : String)
  | translationError (msg : String)
  | untranslatedLines (count : Nat)
  | valueError (msg : String)
  | exception (msg : String)
  deriving DecidableEq, Repr

/-- Which exceptions an `except TranslationError` clause catches.  Modelled
from the spec: `Impossible`, `Failed` and validation errors are translation
errors; `Aborted` is always re-raised before such a clause can see it, and
`ValueError` / generic `Exception` are outside the hierarchy. -/
def PyErr.isTranslationError : PyErr → Bool
  | .translationImpossible _ => true
  | .translationFailed _ => true
  | .translationError _ => true
  | .untranslatedLines _ => true
  | _ => false

def PyErr.isImpossible : PyErr → Bool
  | .translationImpossible _ => true
  | _ => false

/-- `SubtitleTranslator._create_client` (source lines 412-422):
`model = options.get('model') or options.get('gpt_model')`, then dispatch on
the model name. -/
def create_client (options : Options) : Except PyErr ClientKind :=
  match pyOrS options.model options.gpt_model with
  | none => .error (.exception "AttributeError: NoneType has no attribute startswith")
  | some m =>
    if ("gpt".toList).isPrefixOf m.toList then
      if containsSub "instruct".toList m.toList then .ok .instructGPT
      else .ok .chatGPT
    else .error (.exception "Model not supported (yet)")

/-- The constructor guard and client creation from `SubtitleTranslator.__init__`
(source lines 25-48): raise when no options are provided, otherwise create the
client for the configured model.  The external `BuildPrompt` / `UpdateContext`
calls do not influence which exception is raised or which client is chosen. -/
def initTranslator (options : Option Options) : Except PyErr ClientKind :=
  match options with
  | none => .error (.exception "No translation options provided")
  | some opts => create_client opts

/-! ## Context dictionaries

Python `dict`s with string keys.  We use association lists with first-match
lookup; `ctxSet` models `d[k] = v` and `ctxMerge a b` models `{**a, **b}`
(keys of `b` override keys of `a`).  Representations agree with Python up to
lookup; a Python dict is always duplicate-free, and `ctxMerge` is written so
that its lookup equation holds for arbitrary lists as well. -/

inductive CtxVal where
  | s (v : String)
  | lines (v : List String)
  | batchRef (scene batch : Nat)
  | noneV
  deriving DecidableEq, Repr

abbrev Ctx := List (String × CtxVal)

def ctxGet (d : Ctx) (k : String) : Option CtxVal :=
  (d.find? fun kv => kv.1 = k).map fun kv => kv.2

def ctxSet (d : Ctx) (k : String) (v : CtxVal) : Ctx :=
  (k, v) :: d.filter fun kv => kv.1 ≠ k

/-- `{**a, **b}`. -/
def ctxMerge (a b : Ctx) : Ctx :=
  b.foldr (fun kv acc => ctxSet acc kv.1 kv.2) a

/-- `CtxVal` for an optional string value (Python stores `None` for absent). -/
def optStrVal : Option String → CtxVal
  | some s => .s s
  | none => .noneV

/-- Read a context value back as a string, when it is one. -/
def ctxValStr : Option CtxVal → Option String
  | some (.s v) => some v
  | _ => none

/-! ## Document model

`SubtitleLine`, `SubtitleBatch`, `SubtitleScene` and `SubtitleFile` are
defined outside the analysed sources; their fields and derived attributes are
modelled from the spec's data model (§3). -/

structure SubtitleLine where
  number : Nat
  text : String
  deriving DecidableEq, Repr

/-- The per-request raw result together with the outputs the external parser
derives from it (spec §3 "Translation" and §6 parser contract): terminal
flags, the structured per-line results produced by `ProcessTranslation`, the
match against the batch's originals (`matched` / `unmatched`), whether
`ValidateTranslations` raises, and the derived summaries. -/
structure Translation where
  has_translation : Bool
  quota_reached : Bool
  reached_token_limit : Bool
  parsedLines : List SubtitleLine
  matched : List SubtitleLine
  unmatched : List SubtitleLine
  validation_fails : Bool
  summary : Option String
  scene : Option String
  synopsis : Option String
  deriving DecidableEq, Repr

structure SubtitleBatch where
  scene : Nat
  number : Nat
  originals : List SubtitleLine
  translated : Option (List SubtitleLine)
  translation : Option Translation
  errors : List PyErr
  summary : Option String
  context : Ctx
  deriving Repr

/-- Modelled from the spec: a Batch is "fully translated" iff every original
line number appears in `translated` (§3 Batch invariant). -/
def SubtitleBatch.all_translated (b : SubtitleBatch) : Bool :=
  b.originals.all fun l => (b.translated.getD []).any fun t => t.number = l.number

/-- Modelled from the spec: original lines that do not appear in `translated`
("unmatched" lines become untranslated, §4.2). -/
def SubtitleBatch.untranslated (b : SubtitleBatch) : List SubtitleLine :=
  b.originals.filter fun l => !((b.translated.getD []).any fun t => t.number = l.number)

/-- `batch.AddContext(key, value)`: store a value in the batch's context
snapshot. -/
def SubtitleBatch.AddContext (b : SubtitleBatch) (k : String) (v : CtxVal) : SubtitleBatch :=
  { b with context := ctxSet b.context k v }

structure SubtitleScene where
  number : Nat
  batches : List SubtitleBatch
  summary : Option String
  context : Ctx
  deriving Repr

/-- Modelled from the spec: a Scene is "fully translated" iff all its batches
are (§3 Scene invariant). -/
def SubtitleScene.all_translated (sc : SubtitleScene) : Bool :=
  sc.batches.all fun b => b.all_translated

/-- Modelled from the spec: `scene.linecount`, the scene's total line count
(derived, §3). -/
def SubtitleScene.linecount (sc : SubtitleScene) : Nat :=
  (sc.batches.map fun b => b.originals.length).foldr (· + ·) 0

structure SubtitleFile where
  scenes : List SubtitleScene
  originals : List SubtitleLine
  translated : List SubtitleLine
  deriving Repr

/-- Modelled from the spec: `Helpers.MergeTranslations` merges a second set of
translated lines into a first, the second taking precedence for overlapping
line numbers (§4.2 repair cycle). -/
def MergeTranslations (a b : List SubtitleLine) : List SubtitleLine :=
  (a.filter fun l => !(b.any fun m => m.number = l.number)) ++ b

/-- Modelled from the spec: `Helpers.UnbatchScenes` flattens all batches'
original, translated and untranslated lines into document-level projections
(§4.1 step 9). -/
def UnbatchScenes (scenes : List SubtitleScene) :
    List SubtitleLine × List SubtitleLine × List SubtitleLine :=
  ((scenes.map fun sc => (sc.batches.map fun b => b.originals).flatten).flatten,
   (scenes.map fun sc => (sc.batches.map fun b => b.translated.getD []).flatten).flatten,
   (scenes.map fun sc => (sc.batches.map fun b => b.untranslated).flatten).flatten)

/-! ## Orchestration environment and observable trace

The Translation Client, the response parser, the auto-batcher and the
substitution helpers are external collaborators (spec §2, §6); they enter the
model as oracle functions.  Requests are keyed by scene and batch number plus
whether context is included (the token-limit retry drops the context).
Substitutions rewrite the text of each line in place.  The cancellation flag
is polled, never set, inside a run, so it appears as a constant. -/

structure TransEnv where
  options : Options
  /-- `self.context`: the document-level context captured at construction. -/
  context0 : Ctx
  aborted : Bool
  /-- `client.RequestTranslation(prompt, lines, context)`; the `Bool` records
  whether a context was supplied.  `.ok none` models a falsy return. -/
  request_translation : Nat → Nat → Bool → Except PyErr (Option Translation)
  /-- `client.RequestRetranslation(translation, errors)`; `.ok none` models a
  return value that is not a `Translation` instance. -/
  request_retranslation : Nat → Nat → Except PyErr (Option Translation)
  /-- `subtitles.GetBatchContext(scene, batch, max_context_summaries)`. -/
  get_batch_context : Nat → Nat → Option Nat → CtxVal
  /-- Per-line text effect of `batch.PerformInputSubstitutions`. -/
  input_subst : String → String
  /-- Per-line text effect of `batch.ConvertWhitespaceBlocksToNewlines`. -/
  ws_to_newline : String → String
  /-- Per-line text effect of `batch.PerformOutputSubstitutions`. -/
  output_subst : String → String
  /-- `subtitles.AutoBatch(options)`: produce scenes when there are none. -/
  auto_batch : Unit → List SubtitleScene

/-- Observable events of a run: requests issued to the Translation Client,
observer notifications, and the log lines the claims refer to. -/
inductive TraceEv where
  | requestTranslation (scene batch lineCount : Nat) (context : Option Ctx)
  | requestRetranslation (scene batch : Nat) (errors : List PyErr)
  | batchTranslated (scene batch : Nat)
  | sceneTranslated (scene : Nat)
  | preprocessed
  | log (msg : String)
  deriving DecidableEq, Repr

/-! ## RequestRetranslations (source lines 359-395) -/

/-- `SubtitleTranslator.RequestRetranslations`: issue one retranslation
request carrying the batch's current errors, re-run matching and validation
once, and swallow a `TranslationError` from that re-validation. -/
def RequestRetranslations (env : TransEnv) (batch : SubtitleBatch) :
    SubtitleBatch × List SubtitleLine × List TraceEv × Except PyErr Unit :=
  let ev := TraceEv.requestRetranslation batch.scene batch.number batch.errors
  match env.request_retranslation batch.scene batch.number with
  | .error e => (batch, [], [ev], .error e)
  | .ok none =>
    (batch, [], [ev], .error (.translationError "Retranslation is not the expected type"))
  | .ok (some rt) =>
    let retranslated := rt.parsedLines
    if retranslated = [] then
      (batch, [], [ev, .log "Retranslation request did not produce a useful result"], .ok ())
    else
      let b1 := { batch with errors := [] }
      let b2 :=
        if rt.unmatched ≠ [] then
          { b1 with errors := b1.errors ++ [PyErr.untranslatedLines rt.unmatched.length] }
        else b1
      let tr2 :=
        if rt.unmatched ≠ [] then
          [TraceEv.log "Still unable to match lines with a source line - try splitting the batch"]
        else []
      let tr3 :=
        if rt.validation_fails then
          [TraceEv.log "Retranslation request did not fix problems"]
        else [TraceEv.log "Retranslation passed validation"]
      (b2, retranslated, ev :: (tr2 ++ tr3), .ok ())

/-! ## ProcessTranslation (source lines 264-356) -/

/-- The body of `ProcessTranslation`'s outer `try` after the inner
`try/except` has either raised (when retranslations are not allowed) or
recorded the validation error on the batch: the bounded repair attempt, the
assignment of translated lines, and the rolling-context update. -/
def processCore (env : TransEnv) (line_numbers : Option (List Nat))
    (b : SubtitleBatch) (translated0 : List SubtitleLine) (translation : Translation)
    (context : Ctx) : SubtitleBatch × Ctx × List TraceEv × Except PyErr Unit :=
  let options := env.options
  let retry :=
    if b.errors ≠ [] ∧ options.allow_retranslations ∧ ¬env.aborted then
      let (b', retr, tr, r) := RequestRetranslations env b
      (b', MergeTranslations translated0 retr,
        TraceEv.log "failed validation, requesting retranslation" :: tr, r)
    else (b, translated0, ([] : List TraceEv), .ok ())
  let (b2, translated2, tr1, r1) := retry
  match r1 with
  | .error e => (b2, context, tr1, .error e)
  | .ok () =>
    let assigned : SubtitleBatch :=
      match line_numbers with
      | some nums =>
        if nums ≠ [] then
          let t := translated2.filter fun l => l.number ∈ nums
          { b2 with translated := some (MergeTranslations (b2.translated.getD []) t) }
        else { b2 with translated := some translated2 }
      | none => { b2 with translated := some translated2 }
    let b4 :=
      if assigned.untranslated ≠ [] then
        assigned.AddContext "untranslated_lines"
          (.lines (assigned.untranslated.map fun l => toString l.number ++ ". " ++ l.text))
      else assigned
    let b5 := { b4 with
      translated := some ((b4.translated.getD []).map fun l =>
        { l with text := env.output_subst l.text }) }
    if ¬options.retranslate then
      let newSummary := SanitiseSummary options.movie_name (pyOrS translation.summary b5.summary)
      let b6 := { b5 with summary := newSummary }
      let scene_summary := SanitiseSummary options.movie_name translation.scene
      let ctx1 := ctxSet context "summary" (optStrVal newSummary)
      match ctxGet ctx1 "scene" with
      | none => (b6, ctx1, tr1, .error (.exception "KeyError: scene"))
      | some sceneVal =>
        let ctx2 := ctxSet ctx1 "scene"
          (match scene_summary with | some s => .s s | none => sceneVal)
        let synopsisVal : CtxVal :=
          match translation.synopsis with
          | some s => if s ≠ "" then .s s else (ctxGet ctx2 "synopsis").getD (.s "")
          | none => (ctxGet ctx2 "synopsis").getD (.s "")
        let ctx3 := ctxSet ctx2 "synopsis" synopsisVal
        let b7 := { b6 with context := ctx3 }
        (b7, ctx3, tr1 ++ [TraceEv.log "batch line totals"], .ok ())
    else (b5, context, tr1 ++ [TraceEv.log "batch line totals"], .ok ())

/-- The outer `except TranslationError` of `ProcessTranslation` (source lines
352-356): re-raise when `stop_on_error` is set, otherwise log and return
normally; everything outside the `TranslationError` hierarchy propagates. -/
def processOuter (env : TransEnv)
    (st : SubtitleBatch × Ctx × List TraceEv × Except PyErr Unit) :
    SubtitleBatch × Ctx × List TraceEv × Except PyErr Unit :=
  match st with
  | (b, c, tr, .error e) =>
    if e.isTranslationError then
      if env.options.stop_on_error then (b, c, tr, .error e)
      else (b, c, tr ++ [TraceEv.log "Error translating batch"], .ok ())
    else (b, c, tr, .error e)
  | ok => ok

/-- `SubtitleTranslator.ProcessTranslation`: reject an empty-text translation
with a `ValueError` (raised before the outer `try`), reset the batch's
errors, match and validate the parsed lines, run the bounded repair cycle,
and commit the results. -/
def ProcessTranslation (env : TransEnv) (line_numbers : Option (List Nat))
    (batch : SubtitleBatch) (context : Ctx) :
    SubtitleBatch × Ctx × List TraceEv × Except PyErr Unit :=
  let options := env.options
  match batch.translation with
  | none => (batch, context, [], .error (.exception "translation is None"))
  | some translation =>
    if ¬translation.has_translation then
      (batch, context, [], .error (.valueError "Translation contains no translated text"))
    else
      let b1 := { batch with errors := [] }
      let translated := translation.matched
      let unmatchedLog :=
        if translation.unmatched ≠ [] then
          [TraceEv.log "Unable to match lines with a source line"]
        else []
      let innerErr : Option PyErr :=
        if translation.unmatched ≠ [] ∧ options.enforce_line_parity then
          some (.untranslatedLines translation.unmatched.length)
        else if translation.validation_fails then
          some (.translationError "translation validation failed")
        else none
      match innerErr with
      | some e =>
        if ¬options.allow_retranslations then
          processOuter env (b1, context, unmatchedLog, .error e)
        else
          let pc :=
            processCore env line_numbers { b1 with errors := [e] } translated translation context
          processOuter env (pc.1, pc.2.1, unmatchedLog ++ pc.2.2.1, pc.2.2.2)
      | none =>
        let pc := processCore env line_numbers b1 translated translation context
        processOuter env (pc.1, pc.2.1, unmatchedLog ++ pc.2.2.1, pc.2.2.2)

/-! ## TranslateBatches (source lines 157-262) -/

/-- One iteration of the `TranslateBatches` `for` loop, from the
retranslation-context restore (line 177) to the end of the `try` block:
substitutions, blank-line filtering, the `max_lines` truncation, the preview
short-circuit, the request (with the quota and token-limit handling) and the
hand-off to `ProcessTranslation`.  The `Nat` component is `len(originals)`
(used by the caller for the budget decrement); the `Bool` result is `false`
exactly for the `preview` `continue`, which skips the post-`try` part of the
loop body. -/
def translateBatchBody (env : TransEnv) (line_numbers : Option (List Nat))
    (batch0 : SubtitleBatch) (context0 : Ctx) (remaining_lines : Option Nat) :
    SubtitleBatch × Ctx × Nat × List TraceEv × Except PyErr Bool :=
  let options := env.options
  let context :=
    if batch0.context ≠ [] ∧ (options.retranslate ∨ options.reparse) then
      ctxMerge context0 batch0.context
    else context0
  let batch := { batch0 with
    originals := batch0.originals.map fun l => { l with text := env.input_subst l.text } }
  let batch :=
    if options.whitespaces_to_newline then
      { batch with originals := batch.originals.map fun l =>
          { l with text := env.ws_to_newline l.text } }
    else batch
  let filtered := batch.originals.filter fun l => pyStrip l.text.toList ≠ []
  let truncate : Bool :=
    match remaining_lines with
    | some r => decide (r ≠ 0 ∧ filtered.length > r)
    | none => false
  let originals := if truncate then filtered.take ((remaining_lines).getD 0) else filtered
  let truncLog := if truncate then [TraceEv.log "Truncating batch to remain within max_lines"] else []
  -- the `try` block; `process` covers lines 232-240 (`if translation:`)
  let process : Translation → Ctx → SubtitleBatch → List TraceEv →
      SubtitleBatch × Ctx × Nat × List TraceEv × Except PyErr Bool :=
    fun t ctxUsed b pre =>
      let b := { b with translation := some t }
      let b := b.AddContext "summary" ((ctxGet ctxUsed "summary").getD .noneV)
      let b := b.AddContext "summaries" ((ctxGet ctxUsed "summaries").getD .noneV)
      let pr := ProcessTranslation env line_numbers b ctxUsed
      (pr.1, pr.2.1, originals.length, truncLog ++ pre ++ pr.2.2.1,
        pr.2.2.2.map fun _ => true)
  if options.reparse ∧ batch.translation.isSome then
    match batch.translation with
    | some t => process t context batch [TraceEv.log "Reparsing batch"]
    | none => (batch, context, originals.length, truncLog, .error (.exception "unreachable"))
  else if options.preview then
    (batch, context, originals.length,
      truncLog ++ [TraceEv.batchTranslated batch.scene batch.number], .ok false)
  else
    let context := ctxSet context "summaries"
      (env.get_batch_context batch.scene batch.number options.max_context_summaries)
    let context := ctxSet context "summary" (optStrVal batch.summary)
    let context := ctxSet context "batch"
      (.s ("Scene " ++ toString batch.scene ++ " batch " ++ toString batch.number))
    let ev1 := TraceEv.requestTranslation batch.scene batch.number originals.length (some context)
    match env.request_translation batch.scene batch.number true with
    | .error e => (batch, context, originals.length, truncLog ++ [ev1], .error e)
    | .ok otrans =>
      if env.aborted then
        (batch, context, originals.length, truncLog ++ [ev1], .error .translationAborted)
      else
        match otrans with
        | none =>
          (batch, context, originals.length,
            truncLog ++ [ev1, TraceEv.log "No translation"], .ok true)
        | some t =>
          if t.quota_reached then
            (batch, context, originals.length, truncLog ++ [ev1],
              .error (.translationImpossible
                "OpenAI account quota reached, please upgrade your plan or wait until it renews"))
          else if t.reached_token_limit then
            let tokLog := TraceEv.log "Hit API token limit, retrying batch without context"
            let ev2 := TraceEv.requestTranslation batch.scene batch.number originals.length none
            match env.request_translation batch.scene batch.number false with
            | .error e =>
              (batch, context, originals.length, truncLog ++ [ev1, tokLog, ev2], .error e)
            | .ok none =>
              (batch, context, originals.length,
                truncLog ++ [ev1, tokLog, ev2, TraceEv.log "No translation"], .ok true)
            | .ok (some t2) =>
              if t2.reached_token_limit then
                (batch, context, originals.length, truncLog ++ [ev1, tokLog, ev2],
                  .error (.translationError "Too many tokens in translation"))
              else process t2 context batch [ev1, tokLog, ev2]
          else process t context batch [ev1]

/-- The budget update of source lines 254-255:
`remaining_lines = max(0, remaining_lines - len(originals))` guarded by
`if remaining_lines:` (no update when the budget is unset or already zero). -/
def decrementBudget (remaining_lines : Option Nat) (n : Nat) : Option Nat :=
  match remaining_lines with
  | some r => if r ≠ 0 then some (r - n) else some r
  | none => none

/-- `SubtitleTranslator.TranslateBatches`: the loop over a scene's batches,
with the resume skip, the per-batch error policy (source lines 245-252), the
`max_lines` budget decrement and the `previous_batch` context propagation. -/
def translateBatches (env : TransEnv) (line_numbers : Option (List Nat)) :
    List SubtitleBatch → Ctx → Option Nat →
    List SubtitleBatch × Ctx × List TraceEv × Except PyErr Unit
  | [], context, _ => ([], context, [], .ok ())
  | batch :: rest, context, remaining_lines =>
    if env.aborted then (batch :: rest, context, [], .error .translationAborted)
    else if env.options.resume ∧ batch.all_translated then
      let (rest', ctx', tr, r) :=
        translateBatches env line_numbers rest context remaining_lines
      (batch :: rest', ctx', TraceEv.log "batch already translated" :: tr, r)
    else
      let (batch', ctx1, nOriginals, tr1, r1) :=
        translateBatchBody env line_numbers batch context remaining_lines
      -- lines 254-262: budget decrement, break, previous_batch, notification
      let proceed : List TraceEv → List SubtitleBatch × Ctx × List TraceEv × Except PyErr Unit :=
        fun trAcc =>
          let remaining' : Option Nat := decrementBudget remaining_lines nOriginals
          if truthyN remaining_lines ∧ remaining'.getD 0 = 0 then
            (batch' :: rest, ctx1, trAcc, .ok ())
          else
            let ctx2 := ctxSet ctx1 "previous_batch" (.batchRef batch'.scene batch'.number)
            let (rest', ctx3, tr2, r2) :=
              translateBatches env line_numbers rest ctx2 remaining'
            (batch' :: rest', ctx3,
              trAcc ++ [TraceEv.batchTranslated batch'.scene batch'.number] ++ tr2, r2)
      match r1 with
      | .ok true => proceed tr1
      | .ok false =>
        -- preview `continue`: straight to the next batch
        let (rest', ctx2, tr2, r2) :=
          translateBatches env line_numbers rest ctx1 remaining_lines
        (batch' :: rest', ctx2, tr1 ++ tr2, r2)
      | .error e =>
        if e = .translationAborted then (batch' :: rest, ctx1, tr1, .error e)
        else if e.isTranslationError then
          if env.options.stop_on_error ∨ e.isImpossible then
            (batch' :: rest, ctx1, tr1,
              .error (.translationFailed "Failed to translate a batch... terminating"))
          else proceed (tr1 ++ [TraceEv.log "Error translating batch"])
        else (batch' :: rest, ctx1, tr1, .error e)

/-! ## TranslateScene (source lines 120-155) -/

/-- Reference semantics of the batch filter: `TranslateBatches` mutates the
selected batch objects in place, so the updated versions replace the
originals positionally among the batches that passed the filter. -/
def mergeBack (keep : SubtitleBatch → Bool) :
    List SubtitleBatch → List SubtitleBatch → List SubtitleBatch
  | [], _ => []
  | b :: rest, updated =>
    if keep b then
      match updated with
      | u :: us => u :: mergeBack keep rest us
      | [] => b :: mergeBack keep rest []
    else b :: mergeBack keep rest updated

/-- The batch selection of `TranslateScene` (source line 134): when a list of
batch numbers is given and non-empty, keep the batches whose number is in it;
otherwise keep every batch. -/
def sceneKeep (batch_numbers : Option (List Nat)) : SubtitleBatch → Bool := fun b =>
  match batch_numbers with
  | some nums => if nums ≠ [] then b.number ∈ nums else true
  | none => true

/-- `SubtitleTranslator.TranslateScene`: merge the scene context with the
translator's document context, select the batches, run the batch loop, update
the scene summary, and apply the per-scene failure policy (source lines
148-155). -/
def translateScene (env : TransEnv) (scene : SubtitleScene)
    (batch_numbers : Option (List Nat)) (line_numbers : Option (List Nat))
    (remaining_lines : Option Nat) :
    SubtitleScene × List TraceEv × Except PyErr Unit :=
  let options := env.options
  let sceneContext :=
    if scene.context = [] then env.context0 else ctxMerge scene.context env.context0
  let scene1 := { scene with context := sceneContext }
  let keep : SubtitleBatch → Bool := sceneKeep batch_numbers
  let batches := scene1.batches.filter keep
  let context := ctxSet sceneContext "scene"
    (.s (if truthyS scene1.summary then
        "Scene " ++ toString scene1.number ++ ": " ++ scene1.summary.getD ""
      else "Scene " ++ toString scene1.number))
  let tb := translateBatches env line_numbers batches context remaining_lines
  let scene2 := { scene1 with batches := mergeBack keep scene1.batches tb.1 }
  match tb.2.2.2 with
  | .ok () =>
    let newSummary :=
      pyOrS (SanitiseSummary options.movie_name scene2.summary)
        (pyOrS (SanitiseSummary options.movie_name (ctxValStr (ctxGet tb.2.1 "scene")))
          (SanitiseSummary options.movie_name (ctxValStr (ctxGet tb.2.1 "summary"))))
    ({ scene2 with summary := newSummary },
      tb.2.2.1 ++ [TraceEv.sceneTranslated scene2.number], .ok ())
  | .error e =>
    if e = .translationAborted then (scene2, tb.2.2.1, .error e)
    else if options.stop_on_error then (scene2, tb.2.2.1, .error e)
    else (scene2, tb.2.2.1 ++ [TraceEv.log "Failed to translate scene... finishing"], .ok ())

/-! ## TranslateSubtitles (source lines 54-118) -/

/-- Truthiness of `batch.translated` (`None` and `[]` are falsy), used by the
resume filter at source line 96. -/
def SubtitleBatch.translatedTruthy (b : SubtitleBatch) : Bool :=
  match b.translated with
  | some l => l ≠ []
  | none => false

/-- The batch selection passed down by the scene loop (source lines 94-97):
under resume, only the batches not yet truthily translated. -/
def resumeBatchNumbers (env : TransEnv) (scene : SubtitleScene) : Option (List Nat) :=
  if env.options.resume then
    some ((scene.batches.filter fun b => ¬b.translatedTruthy).map fun b => b.number)
  else none

/-- The scene loop of `TranslateSubtitles` (source lines 87-104): resume
skip, per-scene dispatch, and the `max_lines` bookkeeping (decrement by the
scene's line count, stop when the budget is exhausted). -/
def translateSceneLoop (env : TransEnv) :
    List SubtitleScene → Option Nat →
    List SubtitleScene × List TraceEv × Except PyErr Unit
  | [], _ => ([], [], .ok ())
  | scene :: rest, remaining_lines =>
    if env.aborted then (scene :: rest, [], .error .translationAborted)
    else if env.options.resume ∧ scene.all_translated then
      let lp := translateSceneLoop env rest remaining_lines
      (scene :: lp.1, TraceEv.log "Scene already translated" :: lp.2.1, lp.2.2)
    else
      let ts := translateScene env scene (resumeBatchNumbers env scene) none remaining_lines
      match ts.2.2 with
      | .error e => (ts.1 :: rest, ts.2.1, .error e)
      | .ok () =>
        match remaining_lines with
        | some r =>
          if r ≠ 0 then
            if r - ts.1.linecount = 0 then
              (ts.1 :: rest, ts.2.1 ++ [TraceEv.log "Reached max_lines limit... finishing"],
                .ok ())
            else
              let lp := translateSceneLoop env rest (some (r - ts.1.linecount))
              (ts.1 :: lp.1, ts.2.1 ++ lp.2.1, lp.2.2)
          else
            let lp := translateSceneLoop env rest (some r)
            (ts.1 :: lp.1, ts.2.1 ++ lp.2.1, lp.2.2)
        | none =>
          let lp := translateSceneLoop env rest none
          (ts.1 :: lp.1, ts.2.1 ++ lp.2.1, lp.2.2)

/-- `SubtitleTranslator.TranslateSubtitles`: preconditions, auto-batching,
the scene loop, and the final flattening of the translated document. -/
def translateSubtitles (env : TransEnv) (subtitles : Option SubtitleFile) :
    Option SubtitleFile × List TraceEv × Except PyErr Unit :=
  if env.aborted then (subtitles, [], .error .translationAborted)
  else
    match subtitles with
    | none => (none, [], .error (.translationError "No subtitles to translate"))
    | some subs0 =>
      let subs := if subs0.scenes.isEmpty then { subs0 with scenes := env.auto_batch () } else subs0
      if subs.scenes.isEmpty then (some subs, [], .error (.exception "No scenes to translate"))
      else
        let lp := translateSceneLoop env subs.scenes env.options.max_lines
        match lp.2.2 with
        | .error e =>
          (some { subs with scenes := lp.1 }, TraceEv.preprocessed :: lp.2.1, .error e)
        | .ok () =>
          let ub := UnbatchScenes lp.1
          (some { subs with
              scenes := lp.1
              originals := ub.1
              translated := ub.2.1 },
            TraceEv.preprocessed :: lp.2.1, .ok ())

/-! ## Trace observables -/

/-- Scene/batch keys of the requests issued to the Translation Client. -/
def requestKeys : List TraceEv → List (Nat × Nat)
  | [] => []
  | .requestTranslation s b _ _ :: rest => (s, b) :: requestKeys rest
  | _ :: rest => requestKeys rest

/-- Whether an event is a translation request to the client. -/
def isRequestEv : TraceEv → Bool
  | .requestTranslation _ _ _ _ => true
  | _ => false

/-- The validation error `ProcessTranslation`'s inner `try` raises for a
translation whose match/validation fails: the unmatched-lines error when
`enforce_line_parity` flags unmatched lines, otherwise the parser's
validation error. -/
def validationErrorOf (opts : Options) (t : Translation) : PyErr :=
  if t.unmatched ≠ [] ∧ opts.enforce_line_parity = true then
    .untranslatedLines t.unmatched.length
  else .translationError "translation validation failed"

/-- Scene/batch keys and contexts of the context-carrying requests. -/
def requestCtxs : List TraceEv → List (Nat × Nat × Ctx)
  | [] => []
  | .requestTranslation s b _ (some c) :: rest => (s, b, c) :: requestCtxs rest
  | _ :: rest => requestCtxs rest

/-- The cumulative number of lines processed across all batches: each batch's
(truncated) line set counted once, at the context-carrying request that
dispatches it.  The token-limit retry re-sends the same line set without
context and is not a second set of processed lines. -/
def processedLineCount : List TraceEv → Nat
  | [] => 0
  | .requestTranslation _ _ n (some _) :: rest => n + processedLineCount rest
  | _ :: rest => processedLineCount rest

/-- Number of retranslation (repair) requests in a trace. -/
def retransCount : List TraceEv → Nat
  | [] => 0
  | .requestRetranslation _ _ _ :: rest => 1 + retransCount rest
  | _ :: rest => retransCount rest

/-- The updated document of a run. -/
def runFile (env : TransEnv) (subtitles : Option SubtitleFile) : Option SubtitleFile :=
  (translateSubtitles env subtitles).1

/-- The observable trace of a run. -/
def runTrace (env : TransEnv) (subtitles : Option SubtitleFile) : List TraceEv :=
  (translateSubtitles env subtitles).2.1

/-- The outcome of a run. -/
def runResult (env : TransEnv) (subtitles : Option SubtitleFile) : Except PyErr Unit :=
  (translateSubtitles env subtitles).2.2

/-- The scenes a run iterates over: the document's scenes, or the
auto-batcher's output when there are none (source lines 70-77). -/
def scenesOf (env : TransEnv) (subtitles : Option SubtitleFile) : List SubtitleScene :=
  match subtitles with
  | none => []
  | some subs => if subs.scenes.isEmpty then env.auto_batch () else subs.scenes

/-! ## Concrete fixtures

Small documents and client behaviours used to evaluate the orchestrator at
specific inputs. -/

def exLine (n : Nat) (t : String) : SubtitleLine := { number := n, text := t }

def exBatch (sc bn : Nat) (ls : List SubtitleLine) : SubtitleBatch :=
  { scene := sc, number := bn, originals := ls, translated := none, translation := none,
    errors := [], summary := none, context := [] }

/-- A full-match translation for the given originals. -/
def exGoodTrans (ls : List SubtitleLine) : Translation :=
  { has_translation := true, quota_reached := false, reached_token_limit := false,
    parsedLines := ls, matched := ls.map (fun l => { l with text := l.text ++ "!" }),
    unmatched := [], validation_fails := false,
    summary := none, scene := none, synopsis := none }

def exB11 : SubtitleBatch := exBatch 1 1 [exLine 1 "a", exLine 2 "b", exLine 3 "c"]
def exB12 : SubtitleBatch := exBatch 1 2 [exLine 11 "x"]
def exB21 : SubtitleBatch := exBatch 2 1 [exLine 4 "d", exLine 5 "e"]

def exScene1 : SubtitleScene := { number := 1, batches := [exB11], summary := none, context := [] }
def exScene1' : SubtitleScene :=
  { number := 1, batches := [exB11, exB12], summary := none, context := [] }
def exScene2 : SubtitleScene := { number := 2, batches := [exB21], summary := none, context := [] }

/-- Two scenes, one batch each (3 + 2 lines). -/
def exDoc : SubtitleFile := { scenes := [exScene1, exScene2], originals := [], translated := [] }
/-- Two scenes; the first has two batches. -/
def exDoc2 : SubtitleFile := { scenes := [exScene1', exScene2], originals := [], translated := [] }

/-- Environment template: a client driven by the given request behaviour,
identity substitutions, no cancellation. -/
def exEnv (req : Nat → Nat → Bool → Except PyErr (Option Translation)) (opts : Options) :
    TransEnv :=
  { options := opts, context0 := [], aborted := false,
    request_translation := req,
    request_retranslation := fun _ _ => .ok none,
    get_batch_context := fun _ _ _ => .lines [],
    input_subst := id, ws_to_newline := id, output_subst := id,
    auto_batch := fun _ => [] }

/-- Client that fully translates every batch of `exDoc` / `exDoc2`. -/
def exHappyReq : Nat → Nat → Bool → Except PyErr (Option Translation) :=
  fun s b _ =>
    if s = 1 ∧ b = 1 then .ok (some (exGoodTrans [exLine 1 "a", exLine 2 "b", exLine 3 "c"]))
    else if s = 1 ∧ b = 2 then .ok (some (exGoodTrans [exLine 11 "x"]))
    else .ok (some (exGoodTrans [exLine 4 "d", exLine 5 "e"]))

/-- Client that reports `quota_reached` for scene 1 batch 1. -/
def exQuotaReq : Nat → Nat → Bool → Except PyErr (Option Translation) :=
  fun s b w =>
    if s = 1 ∧ b = 1 then
      .ok (some { exGoodTrans [exLine 1 "a", exLine 2 "b", exLine 3 "c"] with
        quota_reached := true })
    else exHappyReq s b w

/-- Client that raises a recoverable `TranslationError` for scene 1 batch 1. -/
def exRecovReq : Nat → Nat → Bool → Except PyErr (Option Translation) :=
  fun s b w => if s = 1 ∧ b = 1 then .error (.translationError "boom") else exHappyReq s b w

/-- Client that returns an empty-text `Translation` for scene 1 batch 1. -/
def exEmptyReq : Nat → Nat → Bool → Except PyErr (Option Translation) :=
  fun s b w =>
    if s = 1 ∧ b = 1 then
      .ok (some { exGoodTrans [exLine 1 "a", exLine 2 "b", exLine 3 "c"] with
        has_translation := false })
    else exHappyReq s b w

def exEnvHappy : TransEnv := exEnv exHappyReq {}
def exEnvQuota : TransEnv := exEnv exQuotaReq {}
def exEnvQuotaStop : TransEnv := exEnv exQuotaReq { stop_on_error := true }
def exEnvRecov : TransEnv := exEnv exRecovReq {}
def exEnvRecovStop : TransEnv := exEnv exRecovReq { stop_on_error := true }
def exEnvEmpty : TransEnv := exEnv exEmptyReq {}
def exEnvEmptyStop : TransEnv := exEnv exEmptyReq { stop_on_error := true }
/-- Budget of three lines: exactly scene 1. -/
def exEnvBudget : TransEnv := exEnv exHappyReq { max_lines := some 3 }

/-- Fixture for the context-merge counterexample: colliding key `k` at the
document and scene levels. -/
def exEnvCtx : TransEnv :=
  { exEnv exHappyReq {} with context0 := [("k", .s "doc")] }
def exSceneCtx : SubtitleScene :=
  { number := 7, batches := [], summary := none, context := [("k", .s "scene")] }

/-- Preview + reparse fixture: a batch with a stored raw translation. -/
def exB11Stored : SubtitleBatch :=
  { exBatch 1 1 [exLine 1 "a", exLine 2 "b", exLine 3 "c"] with
    translation := some (exGoodTrans [exLine 1 "a", exLine 2 "b", exLine 3 "c"]) }
def exScene1Stored : SubtitleScene :=
  { number := 1, batches := [exB11Stored], summary := none, context := [] }
def exDocStored : SubtitleFile :=
  { scenes := [exScene1Stored], originals := [], translated := [] }
def exEnvPrevRep : TransEnv := exEnv exHappyReq { preview := true, reparse := true }

/-- Resume fixture: scene 1 fully translated, scene 2 not. -/
def exB11Done : SubtitleBatch :=
  { exBatch 1 1 [exLine 1 "a", exLine 2 "b", exLine 3 "c"] with
    translated := some [exLine 1 "A", exLine 2 "B", exLine 3 "C"] }
def exScene1Done : SubtitleScene :=
  { number := 1, batches := [exB11Done], summary := none, context := [] }
def exDocResume : SubtitleFile :=
  { scenes := [exScene1Done, exScene2], originals := [], translated := [] }
def exEnvResume : TransEnv := exEnv exHappyReq { resume := true }

/-- Validation-failure fixture for the repair cycle: the first parse fails
validation, the retranslation produces line 2 but still leaves line 1
unmatched. -/
def exBadTrans : Translation :=
  { has_translation := true, quota_reached := false, reached_token_limit := false,
    parsedLines := [], matched := [exLine 2 "B"], unmatched := [exLine 1 "a"],
    validation_fails := true, summary := none, scene := none, synopsis := none }
def exRetrans : Translation :=
  { has_translation := true, quota_reached := false, reached_token_limit := false,
    parsedLines := [exLine 2 "B2"], matched := [exLine 2 "B2"],
    unmatched := [exLine 1 "a"], validation_fails := false,
    summary := none, scene := none, synopsis := none }
def exBatchBad : SubtitleBatch :=
  { exBatch 3 1 [exLine 1 "a", exLine 2 "b"] with translation := some exBadTrans }
def exEnvRepair : TransEnv :=
  { exEnv exHappyReq { allow_retranslations := true } with
    request_retranslation := fun _ _ => .ok (some exRetrans) }

/-! # Theorems

Supporting lemmas first, then one theorem per claim (with witnesses and
counterexamples where required). -/

/-! ## Properties of `pyStrip` -/

theorem dropWhile_idem {α : Type} (p : α → Bool) (l : List α) :
    (l.dropWhile p).dropWhile p = l.dropWhile p := by
  induction l with
  | nil => rfl
  | cons c cs ih =>
    by_cases h : p c
    · simp [List.dropWhile_cons, h, ih]
    · simp [List.dropWhile_cons, h]

theorem dropWhile_head_not {α : Type} (p : α → Bool) (c : α) (w : List α)
    (h : (c :: w).dropWhile p = c :: w) : p c = false := by
  by_contra hc
  rw [Bool.not_eq_false] at hc
  rw [List.dropWhile_cons, if_pos hc] at h
  have hle : (w.dropWhile p).length ≤ w.length := (List.dropWhile_suffix p).length_le
  have := congrArg List.length h
  simp at this
  omega

/-- Right-trimming preserves the property of having no leading whitespace. -/
theorem stripLeft_stripRight (l : List Char) (h : l.dropWhile isPySpace = l) :
    ((l.reverse.dropWhile isPySpace).reverse).dropWhile isPySpace =
    (l.reverse.dropWhile isPySpace).reverse := by
  have hpre : (l.reverse.dropWhile isPySpace).reverse <+: l := by
    have hsuf : l.reverse.dropWhile isPySpace <:+ l.reverse := List.dropWhile_suffix _
    have : ((l.reverse.dropWhile isPySpace).reverse).reverse <:+ l.reverse := by
      rw [List.reverse_reverse]; exact hsuf
    exact List.reverse_suffix.mp this
  cases hx : (l.reverse.dropWhile isPySpace).reverse with
  | nil => rfl
  | cons c w =>
    rw [hx] at hpre
    obtain ⟨s, hs⟩ := hpre
    have hl : l = c :: (w ++ s) := by rw [← hs]; simp
    have hc : isPySpace c = false := by
      apply dropWhile_head_not isPySpace c (w ++ s)
      rw [← hl]; exact h
    simp [List.dropWhile_cons, hc]

theorem pyStrip_idem (l : List Char) : pyStrip (pyStrip l) = pyStrip l := by
  unfold pyStrip
  rw [stripLeft_stripRight (l.dropWhile isPySpace) (dropWhile_idem _ _),
    List.reverse_reverse, dropWhile_idem]

/-! ## C8: SanitiseSummary -/

theorem sanitiseSummaryL_none_or_stripped (movie : Option (List Char))
    (s : Option (List Char)) :
    sanitiseSummaryL movie s = none ∨
    ∃ r, sanitiseSummaryL movie s = some r ∧ r ≠ [] ∧ pyStrip r = r := by
  cases s with
  | none => left; rfl
  | some l =>
    by_cases h0 : l = []
    · left; simp [sanitiseSummaryL, h0]
    · by_cases h1 : pyStrip (sanitisePipeline movie l) = []
      · left; simp [sanitiseSummaryL, h0, h1]
      · right
        refine ⟨pyStrip (sanitisePipeline movie l), ?_, h1, pyStrip_idem _⟩
        simp [sanitiseSummaryL, h0, h1]

/-- C8: `SanitiseSummary` strips a leading run of Scene/Batch labels with
numeric/punctuation noise and returns `None` when the result is empty after
trimming; `SanitiseSummary("Scene 4: A fight breaks out")` is
`"A fight breaks out"`, `SanitiseSummary("   ")` is `None`, and for every
input the result is either `None` or a non-empty trimmed string. -/
theorem C8_sanitise_summary :
    SanitiseSummary none (some "Scene 4: A fight breaks out") = some "A fight breaks out" ∧
    SanitiseSummary none (some "   ") = none ∧
    ∀ (movie s : Option String),
      SanitiseSummary movie s = none ∨
      ∃ r : String, SanitiseSummary movie s = some r ∧ r ≠ "" ∧
        pyStrip r.toList = r.toList := by
  refine ⟨by decide, by decide, ?_⟩
  intro movie s
  rcases sanitiseSummaryL_none_or_stripped (movie.map String.toList) (s.map String.toList)
    with h | ⟨r, hr, hne, hstr⟩
  · left; unfold SanitiseSummary; rw [h]; rfl
  · right
    refine ⟨String.mk r, ?_, ?_, ?_⟩
    · unfold SanitiseSummary; rw [hr]; rfl
    · intro hc; exact hne (by simpa using congrArg String.data hc)
    · exact hstr

/-! ## Context dictionary lemmas -/

theorem ctxGet_set_self (d : Ctx) (k : String) (v : CtxVal) :
    ctxGet (ctxSet d k v) k = some v := by
  simp [ctxGet, ctxSet, List.find?]

theorem find?_filter_ne (d : Ctx) (k k' : String) (h : k' ≠ k) :
    List.find? (fun kv => kv.1 = k') (d.filter fun kv => kv.1 ≠ k) =
    List.find? (fun kv => kv.1 = k') d := by
  induction d with
  | nil => rfl
  | cons kv rest ih =>
    by_cases hk : kv.1 = k
    · have h1 : decide (kv.1 ≠ k) = false := by simp [hk]
      have h2 : decide (kv.1 = k') = false := decide_eq_false (by rw [hk]; exact Ne.symm h)
      simp only [List.filter_cons, h1, Bool.false_eq_true, if_false, List.find?_cons, h2, ih]
    · have h1 : decide (kv.1 ≠ k) = true := by simp [hk]
      simp only [List.filter_cons, h1, if_true, List.find?_cons]
      by_cases hk' : kv.1 = k'
      · simp [hk']
      · have h2 : decide (kv.1 = k') = false := decide_eq_false hk'
        simp only [h2, Bool.false_eq_true, if_false, ih]

theorem ctxGet_set_ne (d : Ctx) (k k' : String) (v : CtxVal) (h : k' ≠ k) :
    ctxGet (ctxSet d k v) k' = ctxGet d k' := by
  unfold ctxGet ctxSet
  rw [List.find?_cons]
  have h2 : decide ((k, v).1 = k') = false := decide_eq_false (Ne.symm h)
  rw [h2]
  simp only [Bool.false_eq_true, if_false]
  rw [find?_filter_ne d k k' h]

/-- Python `a or b` for the relevant optional lookups. -/
theorem ctxGet_merge (a b : Ctx) (k : String) :
    ctxGet (ctxMerge a b) k =
      match ctxGet b k with
      | some v => some v
      | none => ctxGet a k := by
  induction b with
  | nil => rfl
  | cons kv rest ih =>
    show ctxGet (ctxSet (ctxMerge a rest) kv.1 kv.2) k = _
    by_cases hk : k = kv.1
    · subst hk
      rw [ctxGet_set_self]
      simp [ctxGet, List.find?_cons]
    · rw [ctxGet_set_ne _ _ _ _ hk, ih]
      have : (kv.1 = k) = False := by simp [Ne.symm hk]
      simp [ctxGet, List.find?_cons, this]

/-! ## C10: constructor and client selection -/

/-- C10: constructing a `SubtitleTranslator` raises when no options are
provided; `_create_client` raises when the configured model name does not
start with `"gpt"`, selects the instruct client for gpt names containing
`"instruct"`, and the chat client for all other gpt names. -/
theorem C10_init_client_selection :
    initTranslator none = .error (.exception "No translation options provided") ∧
    (∀ opts : Options, initTranslator (some opts) = create_client opts) ∧
    (∀ (opts : Options) (m : String), pyOrS opts.model opts.gpt_model = some m →
      ("gpt".toList.isPrefixOf m.toList) = false →
      create_client opts = .error (.exception "Model not supported (yet)")) ∧
    (∀ (opts : Options) (m : String), pyOrS opts.model opts.gpt_model = some m →
      ("gpt".toList.isPrefixOf m.toList) = true →
      containsSub "instruct".toList m.toList = true →
      create_client opts = .ok .instructGPT) ∧
    (∀ (opts : Options) (m : String), pyOrS opts.model opts.gpt_model = some m →
      ("gpt".toList.isPrefixOf m.toList) = true →
      containsSub "instruct".toList m.toList = false →
      create_client opts = .ok .chatGPT) := by
  refine ⟨rfl, fun _ => rfl, ?_, ?_, ?_⟩ <;>
    · intro opts m hm hp
      try intro hc
      rw [create_client, hm]
      simp_all

theorem C10_init_client_selection_witness :
    create_client { model := some "gpt-3.5-turbo-instruct" } = .ok .instructGPT ∧
    create_client { gpt_model := some "gpt-4" } = .ok .chatGPT ∧
    create_client { model := some "llama-2-70b" } =
      .error (.exception "Model not supported (yet)") :=
  ⟨C10_init_client_selection.2.2.2.1 _ "gpt-3.5-turbo-instruct" (by decide) (by decide)
      (by decide),
   C10_init_client_selection.2.2.2.2 _ "gpt-4" (by decide) (by decide) (by decide),
   C10_init_client_selection.2.2.1 _ "llama-2-70b" (by decide) (by decide)⟩

/-! ## Error-policy helper lemmas -/

theorem PyErr.ne_aborted_of_isTranslationError {e : PyErr} (h : e.isTranslationError = true) :
    e ≠ .translationAborted := by
  cases e <;> simp_all [PyErr.isTranslationError]

theorem requestKeys_append (a b : List TraceEv) :
    requestKeys (a ++ b) = requestKeys a ++ requestKeys b := by
  induction a with
  | nil => rfl
  | cons ev rest ih => cases ev <;> simp [requestKeys, ih]

theorem processedLineCount_append (a b : List TraceEv) :
    processedLineCount (a ++ b) = processedLineCount a + processedLineCount b := by
  induction a with
  | nil => simp [processedLineCount]
  | cons ev rest ih =>
    cases ev with
    | requestTranslation s bn n c => cases c <;> simp [processedLineCount, ih, Nat.add_assoc]
    | _ => simp [processedLineCount, ih]

theorem retransCount_append (a b : List TraceEv) :
    retransCount (a ++ b) = retransCount a + retransCount b := by
  induction a with
  | nil => simp [retransCount]
  | cons ev rest ih => cases ev <;> simp [retransCount, ih, Nat.add_assoc]

/-! ## Trace structure of the response processor

`ProcessTranslation` issues no translation requests; its only client call is
the single retranslation of the repair cycle. -/

theorem requestKeys_RR (env : TransEnv) (b : SubtitleBatch) :
    requestKeys (RequestRetranslations env b).2.2.1 = [] := by
  rw [RequestRetranslations.eq_def]
  split
  · simp [requestKeys]
  · simp [requestKeys]
  · rename_i rt heq
    by_cases hp : rt.parsedLines = []
    · rw [if_pos hp]; simp [requestKeys]
    · rw [if_neg hp]
      by_cases hu : rt.unmatched = [] <;> by_cases hv : rt.validation_fails = true <;>
        simp [hu, hv, requestKeys, requestKeys_append]

theorem retransCount_RR (env : TransEnv) (b : SubtitleBatch) :
    retransCount (RequestRetranslations env b).2.2.1 = 1 := by
  rw [RequestRetranslations.eq_def]
  split
  · simp [retransCount]
  · simp [retransCount]
  · rename_i rt heq
    by_cases hp : rt.parsedLines = []
    · rw [if_pos hp]; simp [retransCount]
    · rw [if_neg hp]
      by_cases hu : rt.unmatched = [] <;> by_cases hv : rt.validation_fails = true <;>
        simp [hu, hv, retransCount, retransCount_append]

theorem mem_RR (env : TransEnv) (b : SubtitleBatch) :
    TraceEv.requestRetranslation b.scene b.number b.errors ∈
      (RequestRetranslations env b).2.2.1 := by
  rw [RequestRetranslations.eq_def]
  split
  · simp
  · simp
  · rename_i rt heq
    by_cases hp : rt.parsedLines = []
    · rw [if_pos hp]; simp
    · rw [if_neg hp]; simp

set_option maxHeartbeats 1000000 in
theorem requestKeys_processCore (env : TransEnv) (ln : Option (List Nat)) (b : SubtitleBatch)
    (tl : List SubtitleLine) (t : Translation) (ctx : Ctx) :
    requestKeys (processCore env ln b tl t ctx).2.2.1 = [] := by
  have hRRk := requestKeys_RR env b
  rcases hRR : RequestRetranslations env b with ⟨b2, retr, tr, r⟩
  rw [hRR] at hRRk
  simp only at hRRk
  rw [processCore.eq_def]
  simp only [hRR]
  split_ifs <;> (try split) <;> (try split) <;> (try split) <;>
    simp_all [requestKeys, requestKeys_append, apply_ite requestKeys]

set_option maxHeartbeats 1000000 in
theorem retransCount_processCore_le (env : TransEnv) (ln : Option (List Nat))
    (b : SubtitleBatch) (tl : List SubtitleLine) (t : Translation) (ctx : Ctx) :
    retransCount (processCore env ln b tl t ctx).2.2.1 ≤ 1 := by
  have hRRc := retransCount_RR env b
  rcases hRR : RequestRetranslations env b with ⟨b2, retr, tr, r⟩
  rw [hRR] at hRRc
  simp only at hRRc
  rw [processCore.eq_def]
  simp only [hRR]
  split_ifs <;> (try split) <;> (try split) <;> (try split) <;>
    simp_all [retransCount, retransCount_append, apply_ite retransCount]

set_option maxHeartbeats 1000000 in
theorem retransCount_processCore_retry (env : TransEnv) (ln : Option (List Nat))
    (b : SubtitleBatch) (tl : List SubtitleLine) (t : Translation) (ctx : Ctx)
    (hcond : b.errors ≠ [] ∧ env.options.allow_retranslations = true ∧ env.aborted = false) :
    retransCount (processCore env ln b tl t ctx).2.2.1 = 1 ∧
    TraceEv.requestRetranslation b.scene b.number b.errors ∈
      (processCore env ln b tl t ctx).2.2.1 := by
  have hRRc := retransCount_RR env b
  have hRRm := mem_RR env b
  rcases hRR : RequestRetranslations env b with ⟨b2, retr, tr, r⟩
  rw [hRR] at hRRc hRRm
  simp only at hRRc hRRm
  rw [processCore.eq_def]
  simp only [hRR]
  rw [if_pos (show b.errors ≠ [] ∧ env.options.allow_retranslations = true ∧
    ¬env.aborted = true from ⟨hcond.1, hcond.2.1, by simp [hcond.2.2]⟩)]
  split <;> (try split) <;> (try split) <;> (try split) <;>
    simp_all [retransCount, retransCount_append, apply_ite retransCount]

theorem requestKeys_processOuter (env : TransEnv)
    (st : SubtitleBatch × Ctx × List TraceEv × Except PyErr Unit) :
    requestKeys (processOuter env st).2.2.1 = requestKeys st.2.2.1 := by
  rw [processOuter.eq_def]
  split <;> (try split_ifs) <;> simp [requestKeys, requestKeys_append]

theorem retransCount_processOuter (env : TransEnv)
    (st : SubtitleBatch × Ctx × List TraceEv × Except PyErr Unit) :
    retransCount (processOuter env st).2.2.1 = retransCount st.2.2.1 := by
  rw [processOuter.eq_def]
  split <;> (try split_ifs) <;> simp [retransCount, retransCount_append]

theorem requestKeys_PT (env : TransEnv) (ln : Option (List Nat)) (b : SubtitleBatch)
    (ctx : Ctx) :
    requestKeys (ProcessTranslation env ln b ctx).2.2.1 = [] := by
  rw [ProcessTranslation.eq_def]
  split
  · simp [requestKeys]
  · split_ifs <;>
      simp_all [requestKeys, requestKeys_append, requestKeys_processOuter,
        requestKeys_processCore, apply_ite requestKeys] <;>
      (try split_ifs) <;> (try split) <;>
      simp_all [requestKeys, requestKeys_append, requestKeys_processOuter,
        requestKeys_processCore, apply_ite requestKeys]

theorem retransCount_PT_le (env : TransEnv) (ln : Option (List Nat)) (b : SubtitleBatch)
    (ctx : Ctx) :
    retransCount (ProcessTranslation env ln b ctx).2.2.1 ≤ 1 := by
  rw [ProcessTranslation.eq_def]
  split
  · simp [retransCount]
  · split_ifs <;>
      simp_all [retransCount, retransCount_append, retransCount_processOuter,
        retransCount_processCore_le, apply_ite retransCount] <;>
      (try split_ifs) <;> (try split) <;>
      simp_all [retransCount, retransCount_append, retransCount_processOuter,
        retransCount_processCore_le, apply_ite retransCount]

theorem processedLineCount_of_requestKeys_nil (tr : List TraceEv)
    (h : requestKeys tr = []) : processedLineCount tr = 0 := by
  induction tr with
  | nil => rfl
  | cons ev rest ih =>
    cases ev with
    | requestTranslation s bn n c =>
      exact absurd h (by simp [requestKeys])
    | _ => simp_all [requestKeys, processedLineCount]

/-! ## C1: quota_reached is not run-fatal without stop_on_error (code bug) -/

/-- C1: the code contradicts the claim (and its own intent).  At the failing
input — `stop_on_error` unset, client reporting `quota_reached` for scene 1
batch 1, a second scene present — the `TranslationFailedError` produced by
the `isinstance(e, TranslationImpossibleError)` escalation (whose message
says "terminating") is swallowed by `TranslateScene`'s blanket
`except Exception` handler, so the run completes `.ok`, scene 2 IS attempted,
and only with `stop_on_error` does the run abort.  No lines of the failing
batch are marked translated, as the claim says. -/
theorem C1_quota_code_bug :
    runResult exEnvQuota (some exDoc) = .ok () ∧
    (2, 1) ∈ requestKeys (runTrace exEnvQuota (some exDoc)) ∧
    ((runFile exEnvQuota (some exDoc)).getD exDoc).scenes.map
      (fun sc => sc.batches.map fun b => b.translated) =
      [[none], [some [exLine 4 "d!", exLine 5 "e!"]]] ∧
    runResult exEnvQuotaStop (some exDoc) =
      .error (.translationFailed "Failed to translate a batch... terminating") :=
  ⟨rfl, by decide, by decide, rfl⟩

/-! ## C2: per-batch (not per-scene) recovery from TranslationErrors -/

/-- C2 (counterexample): a recoverable `TranslationError` on scene 1 batch 1
with `stop_on_error` unset does NOT abandon the scene: batch (1, 2) of the
same scene is still dispatched to the Translation Client, refuting "the
remaining batches of that scene are skipped". -/
theorem C2_counterexample :
    runResult exEnvRecov (some exDoc2) = .ok () ∧
    (1, 2) ∈ requestKeys (runTrace exEnvRecov (some exDoc2)) :=
  ⟨rfl, by decide⟩

/-- C2 (amended): a recoverable `TranslationError` raised while processing a
batch is logged and only that batch is abandoned — the loop continues with
the scene's remaining batches — unless `stop_on_error` is set, in which case
it is wrapped as a fatal `TranslationFailedError` that escalates to run
level. -/
theorem C2_amended :
    (∀ (env : TransEnv) (ln : Option (List Nat)) (batch : SubtitleBatch)
        (rest : List SubtitleBatch) (ctx : Ctx) (rem : Option Nat) (e : PyErr),
      env.aborted = false →
      (env.options.resume = false ∨ batch.all_translated = false) →
      (translateBatchBody env ln batch ctx rem).2.2.2.2 = .error e →
      e.isTranslationError = true →
      env.options.stop_on_error = true →
      translateBatches env ln (batch :: rest) ctx rem =
        ((translateBatchBody env ln batch ctx rem).1 :: rest,
          (translateBatchBody env ln batch ctx rem).2.1,
          (translateBatchBody env ln batch ctx rem).2.2.2.1,
          .error (.translationFailed "Failed to translate a batch... terminating"))) ∧
    (∀ (env : TransEnv) (ln : Option (List Nat)) (batch : SubtitleBatch)
        (rest : List SubtitleBatch) (ctx : Ctx) (e : PyErr),
      env.aborted = false →
      (env.options.resume = false ∨ batch.all_translated = false) →
      (translateBatchBody env ln batch ctx none).2.2.2.2 = .error e →
      e.isTranslationError = true →
      e.isImpossible = false →
      env.options.stop_on_error = false →
      translateBatches env ln (batch :: rest) ctx none =
        ((translateBatchBody env ln batch ctx none).1 ::
            (translateBatches env ln rest
              (ctxSet (translateBatchBody env ln batch ctx none).2.1 "previous_batch"
                (.batchRef (translateBatchBody env ln batch ctx none).1.scene
                  (translateBatchBody env ln batch ctx none).1.number)) none).1,
          (translateBatches env ln rest
            (ctxSet (translateBatchBody env ln batch ctx none).2.1 "previous_batch"
              (.batchRef (translateBatchBody env ln batch ctx none).1.scene
                (translateBatchBody env ln batch ctx none).1.number)) none).2.1,
          ((translateBatchBody env ln batch ctx none).2.2.2.1 ++
              [TraceEv.log "Error translating batch"]) ++
            TraceEv.batchTranslated (translateBatchBody env ln batch ctx none).1.scene
                (translateBatchBody env ln batch ctx none).1.number ::
              (translateBatches env ln rest
                (ctxSet (translateBatchBody env ln batch ctx none).2.1 "previous_batch"
                  (.batchRef (translateBatchBody env ln batch ctx none).1.scene
                    (translateBatchBody env ln batch ctx none).1.number)) none).2.2.1,
          (translateBatches env ln rest
            (ctxSet (translateBatchBody env ln batch ctx none).2.1 "previous_batch"
              (.batchRef (translateBatchBody env ln batch ctx none).1.scene
                (translateBatchBody env ln batch ctx none).1.number)) none).2.2.2)) := by
  constructor
  · intro env ln batch rest ctx rem e habort hskip hbody hte hstop
    rcases hB : translateBatchBody env ln batch ctx rem with ⟨b', c1, n, tr1, r1⟩
    rw [hB] at hbody
    simp only at hbody
    subst hbody
    have hne : (e = PyErr.translationAborted) = False := by
      simp [PyErr.ne_aborted_of_isTranslationError hte]
    rw [translateBatches]
    rcases hskip with h | h <;>
      simp [habort, h, hB, hne, hte, hstop]
  · intro env ln batch rest ctx e habort hskip hbody hte hni hstop
    rcases hB : translateBatchBody env ln batch ctx none with ⟨b', c1, n, tr1, r1⟩
    rw [hB] at hbody
    simp only at hbody
    subst hbody
    have hne : (e = PyErr.translationAborted) = False := by
      simp [PyErr.ne_aborted_of_isTranslationError hte]
    rw [translateBatches]
    rcases hskip with h | h <;>
      simp [habort, h, hB, hne, hte, hni, hstop, truthyN, decrementBudget]

theorem C2_amended_witness :
    translateBatches exEnvRecovStop none [exB11, exB12] [] none =
      ((translateBatchBody exEnvRecovStop none exB11 [] none).1 :: [exB12],
        (translateBatchBody exEnvRecovStop none exB11 [] none).2.1,
        (translateBatchBody exEnvRecovStop none exB11 [] none).2.2.2.1,
        .error (.translationFailed "Failed to translate a batch... terminating")) :=
  C2_amended.1 exEnvRecovStop none exB11 [exB12] [] none (.translationError "boom")
    rfl (Or.inl rfl) rfl rfl rfl

/-! ## C3: the empty-translation ValueError abandons the scene -/

/-- C3 (counterexample): an empty-text `Translation` for scene 1 batch 1 does
NOT leave the run continuing with the other batches of that scene: batch
(1, 2) is never dispatched (the `ValueError` escapes the batch loop and the
scene is abandoned), refuting "the run continues with the other batches". -/
theorem C3_counterexample :
    runResult exEnvEmpty (some exDoc2) = .ok () ∧
    requestKeys (runTrace exEnvEmpty (some exDoc2)) = [(1, 1), (2, 1)] ∧
    (1, 2) ∉ requestKeys (runTrace exEnvEmpty (some exDoc2)) :=
  ⟨rfl, by decide, by decide⟩

/-- C3 (amended): an empty-text `Translation` is rejected immediately with a
`ValueError` that leaves the batch untranslated; being outside the
`TranslationError` hierarchy, the error escapes the batch loop, so the
remaining batches of that scene are skipped and (unless `stop_on_error` is
set) the scene is abandoned with a log and the run continues with the
subsequent scenes. -/
theorem C3_amended :
    (∀ (env : TransEnv) (ln : Option (List Nat)) (batch : SubtitleBatch) (ctx : Ctx)
        (t : Translation),
      batch.translation = some t → t.has_translation = false →
      ProcessTranslation env ln batch ctx =
        (batch, ctx, [], .error (.valueError "Translation contains no translated text"))) ∧
    (∀ (env : TransEnv) (ln : Option (List Nat)) (batch : SubtitleBatch)
        (rest : List SubtitleBatch) (ctx : Ctx) (rem : Option Nat) (e : PyErr),
      env.aborted = false →
      (env.options.resume = false ∨ batch.all_translated = false) →
      (translateBatchBody env ln batch ctx rem).2.2.2.2 = .error e →
      e.isTranslationError = false →
      e ≠ .translationAborted →
      translateBatches env ln (batch :: rest) ctx rem =
        ((translateBatchBody env ln batch ctx rem).1 :: rest,
          (translateBatchBody env ln batch ctx rem).2.1,
          (translateBatchBody env ln batch ctx rem).2.2.2.1, .error e)) ∧
    ((runFile exEnvEmpty (some exDoc2)).getD exDoc2).scenes.map
      (fun sc => sc.batches.map fun b => b.translated) =
      [[none, none], [some [exLine 4 "d!", exLine 5 "e!"]]] ∧
    runResult exEnvEmptyStop (some exDoc2) =
      .error (.valueError "Translation contains no translated text") := by
  refine ⟨?_, ?_, by decide, rfl⟩
  · intro env ln batch ctx t htr hht
    rw [ProcessTranslation]
    simp [htr, hht]
  · intro env ln batch rest ctx rem e habort hskip hbody hte hna
    rcases hB : translateBatchBody env ln batch ctx rem with ⟨b', c1, n, tr1, r1⟩
    rw [hB] at hbody
    simp only at hbody
    subst hbody
    have hne : (e = PyErr.translationAborted) = False := by simp [hna]
    rw [translateBatches]
    rcases hskip with h | h <;> simp [habort, h, hB, hne, hte]

theorem C3_amended_witness :
    ProcessTranslation exEnvHappy none
        { exB11 with translation := some { exGoodTrans [exLine 1 "a"] with
            has_translation := false } } [] =
      ({ exB11 with translation := some { exGoodTrans [exLine 1 "a"] with
            has_translation := false } }, [], [],
        .error (.valueError "Translation contains no translated text")) :=
  C3_amended.1 exEnvHappy none _ []
    { exGoodTrans [exLine 1 "a"] with has_translation := false } rfl rfl

/-! ## C4: the scene-level context merge lets the parent override -/

/-- C4 (counterexample): with a colliding key `"k"` at the document level
(value `"doc"`) and scene level (value `"scene"`), the merged scene context
holds the DOCUMENT-level value, refuting "on every key collision the child's
value overrides the parent's". -/
theorem C4_counterexample :
    ctxGet (translateScene exEnvCtx exSceneCtx none none none).1.context "k" =
        some (.s "doc") ∧
    ctxGet (translateScene exEnvCtx exSceneCtx none none none).1.context "k" ≠
        some (.s "scene") :=
  ⟨by decide, by decide⟩

/-- C4 (amended): scene-level context is a shallow copy of the document-level
context when the scene has none; otherwise the two are merged with the
DOCUMENT-level (parent) value overriding the scene's on key collision
(`{**scene.context, **self.context}`).  Batch-level request context is a
shallow copy of the scene-level context overlaid with the run-specific keys
`summaries`, `summary` and `batch`, which do override, leaving every other
key unchanged. -/
theorem C4_amended :
    (∀ (env : TransEnv) (scene : SubtitleScene) (bn ln : Option (List Nat))
        (rem : Option Nat),
      scene.context = [] →
      (translateScene env scene bn ln rem).1.context = env.context0) ∧
    (∀ (env : TransEnv) (scene : SubtitleScene) (bn ln : Option (List Nat))
        (rem : Option Nat) (k : String),
      scene.context ≠ [] →
      ctxGet (translateScene env scene bn ln rem).1.context k =
        match ctxGet env.context0 k with
        | some v => some v
        | none => ctxGet scene.context k) ∧
    (∀ (env : TransEnv) (ln : Option (List Nat)) (batch : SubtitleBatch) (ctx : Ctx)
        (rem : Option Nat),
      env.options.retranslate = false →
      env.options.reparse = false →
      env.options.preview = false →
      (batch.scene, batch.number, ctxSet (ctxSet (ctxSet ctx "summaries"
            (env.get_batch_context batch.scene batch.number env.options.max_context_summaries))
          "summary" (optStrVal batch.summary))
          "batch" (.s ("Scene " ++ toString batch.scene ++ " batch " ++ toString batch.number))) ∈
        requestCtxs (translateBatchBody env ln batch ctx rem).2.2.2.1) ∧
    (∀ (ctx : Ctx) (v1 v2 v3 : CtxVal) (k : String),
      k ≠ "summaries" → k ≠ "summary" → k ≠ "batch" →
      ctxGet (ctxSet (ctxSet (ctxSet ctx "summaries" v1) "summary" v2) "batch" v3) k =
        ctxGet ctx k) := by
  refine ⟨?_, ?_, ?_, ?_⟩
  · intro env scene bn ln rem h
    rw [translateScene]
    simp only [h]
    split
    · simp
    · split_ifs <;> simp
  · intro env scene bn ln rem k h
    rw [translateScene]
    simp only [h, if_false]
    split
    · simp [ctxGet_merge]
    · split_ifs <;> simp [ctxGet_merge]
  · intro env ln batch ctx rem hretr hrep hprev
    rw [translateBatchBody.eq_def]
    cases hws : env.options.whitespaces_to_newline <;>
    · simp only [hretr, hrep, hprev, hws, Bool.false_eq_true, false_and, and_false, false_or,
        if_false, if_true, ne_eq, eq_self_iff_true, ite_true, ite_false]
      rcases hreq : env.request_translation batch.scene batch.number true with e | ot
      · simp only [hreq]
        split_ifs <;> simp [requestCtxs]
      · rcases ot with _ | t
        · simp only [hreq]
          split_ifs <;> simp [requestCtxs]
        · simp only [hreq]
          by_cases hq : t.quota_reached = true
          · simp only [hq, if_true]
            split_ifs <;> simp [requestCtxs]
          · rw [if_neg hq]
            by_cases htl : t.reached_token_limit = true
            · simp only [htl, if_true]
              rcases hreq2 : env.request_translation batch.scene batch.number false with e2 | ot2
              · simp only [hreq2]
                split_ifs <;> simp [requestCtxs]
              · rcases ot2 with _ | t2
                · simp only [hreq2]
                  split_ifs <;> simp [requestCtxs]
                · simp only [hreq2]
                  by_cases htl2 : t2.reached_token_limit = true
                  · simp only [htl2, if_true]
                    split_ifs <;> simp [requestCtxs]
                  · rw [if_neg htl2]
                    split_ifs <;> simp [requestCtxs]
            · rw [if_neg htl]
              split_ifs <;> simp [requestCtxs]
  · intro ctx v1 v2 v3 k h1 h2 h3
    rw [ctxGet_set_ne _ _ _ _ h3, ctxGet_set_ne _ _ _ _ h2, ctxGet_set_ne _ _ _ _ h1]

theorem C4_amended_witness :
    ctxGet (translateScene exEnvCtx exSceneCtx none none none).1.context "k" =
      (match ctxGet exEnvCtx.context0 "k" with
        | some v => some v
        | none => ctxGet exSceneCtx.context "k") ∧
    (1, 1, ctxSet (ctxSet (ctxSet [] "summaries" (.lines []))
        "summary" (optStrVal none)) "batch" (.s "Scene 1 batch 1")) ∈
      requestCtxs (translateBatchBody exEnvHappy none exB11 [] none).2.2.2.1 :=
  ⟨C4_amended.2.1 exEnvCtx exSceneCtx none none none "k" (by decide),
   C4_amended.2.2.1 exEnvHappy none exB11 [] none rfl rfl rfl⟩

/-! ## C9: preview skips the request unless reparse short-circuits it -/

/-- C9 (counterexample): with `preview` AND `reparse` both set and a stored
raw translation on the batch, the preview check is never reached: no request
is made, but the stored translation is reprocessed and translation state IS
written to the batch, refuting "no translation state is written". -/
theorem C9_counterexample :
    runResult exEnvPrevRep (some exDocStored) = .ok () ∧
    requestKeys (runTrace exEnvPrevRep (some exDocStored)) = [] ∧
    ((runFile exEnvPrevRep (some exDocStored)).getD exDocStored).scenes.map
      (fun sc => sc.batches.map fun b => b.translated) =
      [[some [exLine 1 "a!", exLine 2 "b!", exLine 3 "c!"]]] :=
  ⟨rfl, by decide, by decide⟩

/-- C9 (amended): for every batch processed while `preview` is set and the
batch is not picked up by a `reparse` of a stored raw translation, no request
is made to the Translation Client, the batch-translated notification is the
only mark left, and the batch's translation state (`translated`,
`translation`, `errors`, `summary`, `context`) is unchanged. -/
theorem C9_amended :
    ∀ (env : TransEnv) (ln : Option (List Nat)) (batch : SubtitleBatch) (ctx : Ctx)
      (rem : Option Nat),
    env.options.preview = true →
    (env.options.reparse = false ∨ batch.translation = none) →
    (translateBatchBody env ln batch ctx rem).2.2.2.2 = .ok false ∧
    (translateBatchBody env ln batch ctx rem).1.translated = batch.translated ∧
    (translateBatchBody env ln batch ctx rem).1.translation = batch.translation ∧
    (translateBatchBody env ln batch ctx rem).1.errors = batch.errors ∧
    (translateBatchBody env ln batch ctx rem).1.summary = batch.summary ∧
    (translateBatchBody env ln batch ctx rem).1.context = batch.context ∧
    requestKeys (translateBatchBody env ln batch ctx rem).2.2.2.1 = [] ∧
    TraceEv.batchTranslated batch.scene batch.number ∈
      (translateBatchBody env ln batch ctx rem).2.2.2.1 := by
  intro env ln batch ctx rem hprev hrep
  rw [translateBatchBody.eq_def]
  rcases hrep with h | h <;>
    · simp only [h, hprev, Option.isSome_none, Bool.false_eq_true, false_and, and_false,
        if_false, if_true]
      split_ifs <;> simp_all [requestKeys, requestKeys_append]

theorem C9_amended_witness :
    (translateBatchBody (exEnv exHappyReq { preview := true }) none exB11 [] none).2.2.2.2 =
        .ok false ∧
    (translateBatchBody (exEnv exHappyReq { preview := true }) none exB11 [] none).1.translated =
        exB11.translated ∧
    requestKeys
        (translateBatchBody (exEnv exHappyReq { preview := true }) none exB11 [] none).2.2.2.1 =
      [] :=
  ⟨(C9_amended (exEnv exHappyReq { preview := true }) none exB11 [] none rfl (Or.inl rfl)).1,
   (C9_amended (exEnv exHappyReq { preview := true }) none exB11 [] none rfl (Or.inl rfl)).2.1,
   (C9_amended (exEnv exHappyReq { preview := true }) none exB11 [] none rfl
      (Or.inl rfl)).2.2.2.2.2.2.1⟩

/-! ## C6: a single bounded repair attempt -/

theorem mem_processOuter (env : TransEnv)
    (st : SubtitleBatch × Ctx × List TraceEv × Except PyErr Unit) (ev : TraceEv)
    (h : ev ∈ st.2.2.1) : ev ∈ (processOuter env st).2.2.1 := by
  rw [processOuter.eq_def]
  split <;> (try split_ifs) <;> simp_all

theorem processOuter_ok' (env : TransEnv) (a : SubtitleBatch) (c : Ctx)
    (tr : List TraceEv) : processOuter env (a, c, tr, .ok ()) = (a, c, tr, .ok ()) := rfl

/-- `RequestRetranslations` on a still-unmatched retranslation: one request,
errors rebuilt to the single unmatched-lines error, parsed lines returned. -/
theorem RR_spec (env : TransEnv) (b : SubtitleBatch) (rt : Translation)
    (hreq : env.request_retranslation b.scene b.number = .ok (some rt))
    (hp : rt.parsedLines ≠ []) (hu : rt.unmatched ≠ []) :
    RequestRetranslations env b =
      ({ b with errors := [.untranslatedLines rt.unmatched.length] }, rt.parsedLines,
        TraceEv.requestRetranslation b.scene b.number b.errors ::
          ([TraceEv.log "Still unable to match lines with a source line - try splitting the batch"] ++
           (if rt.validation_fails = true then
              [TraceEv.log "Retranslation request did not fix problems"]
            else [TraceEv.log "Retranslation passed validation"])), .ok ()) := by
  rw [RequestRetranslations.eq_def, hreq]
  simp [hp, hu]

set_option maxHeartbeats 2000000 in
/-- The repair cycle of `processCore` on a batch with recorded errors: the
run stays non-fatal, the errors are exactly the unmatched-lines error, and
the merged translation set is committed. -/
theorem processCore_repair_spec (env : TransEnv) (b : SubtitleBatch)
    (tl : List SubtitleLine) (t : Translation) (ctx : Ctx) (rt : Translation)
    (hberr : b.errors ≠ [])
    (hallow : env.options.allow_retranslations = true)
    (habort : env.aborted = false)
    (hreq : env.request_retranslation b.scene b.number = .ok (some rt))
    (hp : rt.parsedLines ≠ []) (hu : rt.unmatched ≠ [])
    (hsc : (ctxGet ctx "scene").isSome = true) :
    (processCore env none b tl t ctx).2.2.2 = .ok () ∧
    (processCore env none b tl t ctx).1.errors = [.untranslatedLines rt.unmatched.length] ∧
    (processCore env none b tl t ctx).1.originals = b.originals ∧
    (processCore env none b tl t ctx).1.translated =
      some ((MergeTranslations tl rt.parsedLines).map
        (fun l => { l with text := env.output_subst l.text })) := by
  simp only [processCore.eq_def]
  rw [if_pos (show b.errors ≠ [] ∧ env.options.allow_retranslations = true ∧
    ¬env.aborted = true from ⟨hberr, hallow, by simp [habort]⟩)]
  rw [RR_spec env b rt hreq hp hu]
  simp only []
  obtain ⟨sv, hsv⟩ := Option.isSome_iff_exists.mp hsc
  by_cases hrt : env.options.retranslate = true
  · simp only [hrt, eq_self_iff_true, not_true, if_false, ite_false]
    split_ifs <;> simp [SubtitleBatch.AddContext]
  · simp only [hrt]
    rw [ctxGet_set_ne ctx "summary" "scene" _ (by decide), hsv]
    split_ifs <;> simp [SubtitleBatch.AddContext]

theorem untranslated_of_unmatched (b' : SubtitleBatch) (l : SubtitleLine)
    (hor : l ∈ b'.originals)
    (htr : ∀ m ∈ b'.translated.getD [], m.number ≠ l.number) :
    l ∈ b'.untranslated := by
  unfold SubtitleBatch.untranslated
  rw [List.mem_filter]
  refine ⟨hor, ?_⟩
  simp only [Bool.not_eq_true', List.any_eq_false, decide_eq_true_eq]
  exact htr

set_option maxHeartbeats 2000000 in
/-- C6: at most one retranslation request is ever issued while processing a
batch; when validation fails with `allow_retranslations` set and the run not
cancelled, exactly one request is issued, carrying the batch's current
errors; and when the retranslation still leaves unmatched lines, they remain
recorded as the batch's error and as untranslated lines without the batch
becoming a fatal error. -/
theorem C6_single_repair :
    (∀ (env : TransEnv) (ln : Option (List Nat)) (b : SubtitleBatch) (ctx : Ctx),
      retransCount (ProcessTranslation env ln b ctx).2.2.1 ≤ 1) ∧
    (∀ (env : TransEnv) (ln : Option (List Nat)) (b : SubtitleBatch) (ctx : Ctx)
        (t : Translation),
      b.translation = some t → t.has_translation = true →
      ((t.unmatched ≠ [] ∧ env.options.enforce_line_parity = true) ∨
        t.validation_fails = true) →
      env.options.allow_retranslations = true → env.aborted = false →
      retransCount (ProcessTranslation env ln b ctx).2.2.1 = 1 ∧
      TraceEv.requestRetranslation b.scene b.number [validationErrorOf env.options t] ∈
        (ProcessTranslation env ln b ctx).2.2.1) ∧
    (∀ (env : TransEnv) (b : SubtitleBatch) (ctx : Ctx) (t rt : Translation),
      b.translation = some t → t.has_translation = true →
      ((t.unmatched ≠ [] ∧ env.options.enforce_line_parity = true) ∨
        t.validation_fails = true) →
      env.options.allow_retranslations = true → env.aborted = false →
      env.request_retranslation b.scene b.number = .ok (some rt) →
      rt.parsedLines ≠ [] → rt.unmatched ≠ [] →
      (ctxGet ctx "scene").isSome = true →
      (ProcessTranslation env none b ctx).2.2.2 = .ok () ∧
      (ProcessTranslation env none b ctx).1.errors =
        [.untranslatedLines rt.unmatched.length] ∧
      ∀ l ∈ rt.unmatched, l ∈ b.originals →
        (∀ m ∈ t.matched, m.number ≠ l.number) →
        (∀ m ∈ rt.parsedLines, m.number ≠ l.number) →
        l ∈ (ProcessTranslation env none b ctx).1.untranslated) := by
  refine ⟨retransCount_PT_le, ?_, ?_⟩
  · intro env ln b ctx t htrans hhas hfail hallow habort
    rw [ProcessTranslation.eq_def]
    simp only [htrans, hhas, not_true, Bool.true_eq_false, if_false, ite_false]
    have hinner :
        (if t.unmatched ≠ [] ∧ env.options.enforce_line_parity = true then
          some (PyErr.untranslatedLines t.unmatched.length)
        else if t.validation_fails = true then
          some (PyErr.translationError "translation validation failed")
        else none) = some (validationErrorOf env.options t) := by
      rcases hfail with h | h
      · rw [if_pos h, validationErrorOf, if_pos h]
      · by_cases hfirst : t.unmatched ≠ [] ∧ env.options.enforce_line_parity = true
        · rw [if_pos hfirst, validationErrorOf, if_pos hfirst]
        · rw [if_neg hfirst, if_pos h, validationErrorOf, if_neg hfirst]
    rw [hinner]
    simp only [hallow, eq_self_iff_true, not_true, if_false, ite_false]
    have hretry := retransCount_processCore_retry env ln
      { scene := b.scene, number := b.number, originals := b.originals,
        translated := b.translated, translation := some t,
        errors := [validationErrorOf env.options t],
        summary := b.summary, context := b.context } t.matched t ctx
      (by simp [hallow, habort])
    constructor
    · rw [retransCount_processOuter]
      simp only [retransCount_append, apply_ite retransCount]
      simp [retransCount, hretry.1, apply_ite retransCount]
    · apply mem_processOuter
      simp only []
      rw [List.mem_append]
      right
      exact hretry.2
  · intro env b ctx t rt htrans hhas hfail hallow habort hreq hp hu hsc
    rw [ProcessTranslation.eq_def]
    simp only [htrans, hhas, not_true, Bool.true_eq_false, if_false, ite_false]
    have hinner :
        (if t.unmatched ≠ [] ∧ env.options.enforce_line_parity = true then
          some (PyErr.untranslatedLines t.unmatched.length)
        else if t.validation_fails = true then
          some (PyErr.translationError "translation validation failed")
        else none) = some (validationErrorOf env.options t) := by
      rcases hfail with h | h
      · rw [if_pos h, validationErrorOf, if_pos h]
      · by_cases hfirst : t.unmatched ≠ [] ∧ env.options.enforce_line_parity = true
        · rw [if_pos hfirst, validationErrorOf, if_pos hfirst]
        · rw [if_neg hfirst, if_pos h, validationErrorOf, if_neg hfirst]
    rw [hinner]
    simp only [hallow, eq_self_iff_true, not_true, if_false, ite_false]
    have hspec := processCore_repair_spec env
      { scene := b.scene, number := b.number, originals := b.originals,
        translated := b.translated, translation := some t,
        errors := [validationErrorOf env.options t],
        summary := b.summary, context := b.context } t.matched t ctx rt
      (by simp) hallow habort hreq hp hu hsc
    rw [hspec.1, processOuter_ok']
    refine ⟨rfl, hspec.2.1, ?_⟩
    intro l hl hor hm1 hm2
    apply untranslated_of_unmatched
    · rw [hspec.2.2.1]; exact hor
    · rw [hspec.2.2.2]
      simp only [Option.getD_some]
      intro m hm
      obtain ⟨m0, hm0, rfl⟩ := List.mem_map.mp hm
      show m0.number ≠ l.number
      rcases List.mem_append.mp hm0 with hcase | hcase
      · exact hm1 m0 (List.mem_of_mem_filter hcase)
      · exact hm2 m0 hcase

theorem C6_single_repair_witness :
    retransCount (ProcessTranslation exEnvRepair none exBatchBad
        [("scene", CtxVal.s "Scene 3")]).2.2.1 = 1 ∧
    (ProcessTranslation exEnvRepair none exBatchBad
        [("scene", CtxVal.s "Scene 3")]).2.2.2 = .ok () ∧
    (ProcessTranslation exEnvRepair none exBatchBad
        [("scene", CtxVal.s "Scene 3")]).1.errors = [.untranslatedLines 1] ∧
    exLine 1 "a" ∈ (ProcessTranslation exEnvRepair none exBatchBad
        [("scene", CtxVal.s "Scene 3")]).1.untranslated :=
  ⟨(C6_single_repair.2.1 exEnvRepair none exBatchBad [("scene", CtxVal.s "Scene 3")]
      exBadTrans rfl rfl (Or.inr rfl) rfl rfl).1,
   (C6_single_repair.2.2 exEnvRepair exBatchBad [("scene", CtxVal.s "Scene 3")]
      exBadTrans exRetrans rfl rfl (Or.inr rfl) rfl rfl rfl (by decide) (by decide) rfl).1,
   (C6_single_repair.2.2 exEnvRepair exBatchBad [("scene", CtxVal.s "Scene 3")]
      exBadTrans exRetrans rfl rfl (Or.inr rfl) rfl rfl rfl (by decide) (by decide) rfl).2.1,
   (C6_single_repair.2.2 exEnvRepair exBatchBad [("scene", CtxVal.s "Scene 3")]
      exBadTrans exRetrans rfl rfl (Or.inr rfl) rfl rfl rfl (by decide) (by decide)
      rfl).2.2 (exLine 1 "a") (by decide) (by decide) (by decide) (by decide)⟩


/-! ## C7: resume skips -/

set_option maxHeartbeats 2000000 in
theorem body_keys (env : TransEnv) (ln : Option (List Nat)) (batch : SubtitleBatch)
    (ctx : Ctx) (rem : Option Nat) :
    ∀ k ∈ requestKeys (translateBatchBody env ln batch ctx rem).2.2.2.1,
      k = (batch.scene, batch.number) := by
  rw [translateBatchBody.eq_def]
  cases hws : env.options.whitespaces_to_newline <;>
  · simp only [hws, Bool.false_eq_true, Bool.true_eq_false, if_false, if_true, ite_true,
      ite_false, eq_self_iff_true]
    by_cases hrp : env.options.reparse = true ∧ batch.translation.isSome = true
    · rw [if_pos hrp]
      rcases htr : batch.translation with _ | t
      · rw [htr] at hrp; simp at hrp
      · simp only [htr]
        split_ifs <;>
          simp [requestKeys, requestKeys_append, requestKeys_PT, apply_ite requestKeys]
    · rw [if_neg hrp]
      by_cases hpv : env.options.preview = true
      · rw [if_pos hpv]
        split_ifs <;> simp [requestKeys, requestKeys_append]
      · rw [if_neg hpv]
        rcases hreq : env.request_translation batch.scene batch.number true with e | ot
        · simp only [hreq]
          split_ifs <;> simp [requestKeys, requestKeys_append]
        · rcases ot with _ | t
          · simp only [hreq]
            split_ifs <;> simp [requestKeys, requestKeys_append]
          · simp only [hreq]
            by_cases hq : t.quota_reached = true
            · simp only [hq, if_true]
              split_ifs <;> simp [requestKeys, requestKeys_append]
            · rw [if_neg hq]
              by_cases htl : t.reached_token_limit = true
              · simp only [htl, if_true]
                rcases hreq2 : env.request_translation batch.scene batch.number false
                  with e2 | ot2
                · simp only [hreq2]
                  split_ifs <;> simp [requestKeys, requestKeys_append]
                · rcases ot2 with _ | t2
                  · simp only [hreq2]
                    split_ifs <;> simp [requestKeys, requestKeys_append]
                  · simp only [hreq2]
                    by_cases htl2 : t2.reached_token_limit = true
                    · simp only [htl2, if_true]
                      split_ifs <;> simp [requestKeys, requestKeys_append]
                    · rw [if_neg htl2]
                      split_ifs <;>
                        simp [requestKeys, requestKeys_append, requestKeys_PT,
                          apply_ite requestKeys]
              · rw [if_neg htl]
                split_ifs <;>
                  simp [requestKeys, requestKeys_append, requestKeys_PT,
                    apply_ite requestKeys]

theorem keys_cons (env : TransEnv) (ln : Option (List Nat)) (batch : SubtitleBatch)
    (rest : List SubtitleBatch) (ctx : Ctx) (rem : Option Nat)
    (habort : env.aborted = false) :
    ∀ k ∈ requestKeys (translateBatches env ln (batch :: rest) ctx rem).2.2.1,
      (¬(env.options.resume = true ∧ batch.all_translated = true) ∧
        k ∈ requestKeys (translateBatchBody env ln batch ctx rem).2.2.2.1) ∨
      (∃ ctx2 rem2, k ∈ requestKeys (translateBatches env ln rest ctx2 rem2).2.2.1) := by
  intro k hk
  rw [translateBatches] at hk
  rw [if_neg (show ¬env.aborted = true by simp [habort])] at hk
  by_cases hskip : env.options.resume = true ∧ batch.all_translated = true
  · rw [if_pos hskip] at hk
    rcases hR : translateBatches env ln rest ctx rem with ⟨rest', c', tr, r⟩
    rw [hR] at hk
    simp only [requestKeys] at hk
    right
    refine ⟨ctx, rem, ?_⟩
    rw [hR]
    exact hk
  · rw [if_neg hskip] at hk
    rcases hB : translateBatchBody env ln batch ctx rem with ⟨b', c1, n, tr1, r1⟩
    rcases r1 with e | bflag <;> rw [hB] at hk <;> simp only [] at hk
    · -- error case
      by_cases hea : e = PyErr.translationAborted
      · rw [if_pos hea] at hk
        exact Or.inl ⟨hskip, hk⟩
      · rw [if_neg hea] at hk
        by_cases hte : e.isTranslationError = true
        · rw [if_pos hte] at hk
          by_cases hst : env.options.stop_on_error = true ∨ e.isImpossible = true
          · rw [if_pos hst] at hk
            simp only [] at hk
            exact Or.inl ⟨hskip, hk⟩
          · rw [if_neg hst] at hk
            split_ifs at hk
            · rw [requestKeys_append] at hk
              rcases List.mem_append.mp hk with h | h
              · exact Or.inl ⟨hskip, h⟩
              · simp [requestKeys] at h
            · rcases hR : translateBatches env ln rest
                  (ctxSet c1 "previous_batch" (.batchRef b'.scene b'.number))
                  (decrementBudget rem n) with ⟨rest', ctx3, tr2, r2⟩
              rw [hR] at hk
              simp only [requestKeys_append, List.mem_append, requestKeys] at hk
              rcases hk with (h | h) | h
              · rcases h with h2 | h2
                · exact Or.inl ⟨hskip, h2⟩
                · simp at h2
              · simp [requestKeys] at h
              · refine Or.inr ⟨ctxSet c1 "previous_batch" (.batchRef b'.scene b'.number),
                  decrementBudget rem n, ?_⟩
                rw [hR]
                exact h
        · rw [if_neg hte] at hk
          exact Or.inl ⟨hskip, hk⟩
    · -- ok case
      rcases bflag with _ | _ <;> simp only [] at hk
      · -- ok false : preview continue
        rcases hR : translateBatches env ln rest c1 rem with ⟨rest', ctx2, tr2, r2⟩
        rw [hR] at hk
        rw [requestKeys_append] at hk
        rcases List.mem_append.mp hk with h | h
        · exact Or.inl ⟨hskip, h⟩
        · refine Or.inr ⟨c1, rem, ?_⟩
          rw [hR]
          exact h
      · -- ok true : proceed
        split_ifs at hk
        · exact Or.inl ⟨hskip, hk⟩
        · rcases hR : translateBatches env ln rest
              (ctxSet c1 "previous_batch" (.batchRef b'.scene b'.number))
              (decrementBudget rem n) with ⟨rest', ctx3, tr2, r2⟩
          rw [hR] at hk
          simp only [requestKeys_append, List.mem_append, requestKeys] at hk
          rcases hk with (h | h) | h
          · exact Or.inl ⟨hskip, h⟩
          · simp [requestKeys] at h
          · refine Or.inr ⟨ctxSet c1 "previous_batch" (.batchRef b'.scene b'.number),
              decrementBudget rem n, ?_⟩
            rw [hR]
            exact h

theorem batches_keys_resume (env : TransEnv) (ln : Option (List Nat))
    (hres : env.options.resume = true) (habort : env.aborted = false) :
    ∀ (batches : List SubtitleBatch) (ctx : Ctx) (rem : Option Nat),
    ∀ k ∈ requestKeys (translateBatches env ln batches ctx rem).2.2.1,
    ∃ b ∈ batches, b.all_translated = false ∧ k = (b.scene, b.number) := by
  intro batches
  induction batches with
  | nil =>
    intro ctx rem k hk
    simp [translateBatches, requestKeys] at hk
  | cons batch rest ih =>
    intro ctx rem k hk
    rcases keys_cons env ln batch rest ctx rem habort k hk with ⟨hns, hkey⟩ | ⟨c2, r2, h⟩
    · have hat : batch.all_translated = false := by
        by_contra hcontra
        exact hns ⟨hres, by simpa using hcontra⟩
      exact ⟨batch, List.mem_cons_self _ _, hat, body_keys env ln batch ctx rem k hkey⟩
    · obtain ⟨b, hb, hb2, hb3⟩ := ih c2 r2 k h
      exact ⟨b, List.mem_cons_of_mem _ hb, hb2, hb3⟩

theorem scene_keys_resume (env : TransEnv) (scene : SubtitleScene)
    (bn ln : Option (List Nat)) (rem : Option Nat)
    (hres : env.options.resume = true) (habort : env.aborted = false) :
    ∀ k ∈ requestKeys (translateScene env scene bn ln rem).2.1,
    ∃ b ∈ scene.batches, b.all_translated = false ∧ k = (b.scene, b.number) := by
  intro k hk
  simp only [translateScene] at hk
  split at hk
  · -- ok arm
    rw [requestKeys_append] at hk
    rcases List.mem_append.mp hk with h | h
    · obtain ⟨b, hb, hb2, hb3⟩ := batches_keys_resume env ln hres habort _ _ _ k h
      refine ⟨b, ?_, hb2, hb3⟩
      simpa using (List.mem_filter.mp hb).1
    · simp [requestKeys] at h
  · -- error arm
    split_ifs at hk <;>
    first
    | (obtain ⟨b, hb, hb2, hb3⟩ := batches_keys_resume env ln hres habort _ _ _ k hk
       refine ⟨b, ?_, hb2, hb3⟩
       simpa using (List.mem_filter.mp hb).1)
    | (rw [requestKeys_append] at hk
       rcases List.mem_append.mp hk with h | h
       · obtain ⟨b, hb, hb2, hb3⟩ := batches_keys_resume env ln hres habort _ _ _ k h
         refine ⟨b, ?_, hb2, hb3⟩
         simpa using (List.mem_filter.mp hb).1
       · simp [requestKeys] at h)

set_option maxHeartbeats 1000000 in
theorem loop_keys_resume (env : TransEnv)
    (hres : env.options.resume = true) (habort : env.aborted = false) :
    ∀ (scenes : List SubtitleScene) (rem : Option Nat),
    ∀ k ∈ requestKeys (translateSceneLoop env scenes rem).2.1,
    ∃ sc ∈ scenes, sc.all_translated = false ∧
      ∃ b ∈ sc.batches, b.all_translated = false ∧ k = (b.scene, b.number) := by
  intro scenes
  induction scenes with
  | nil =>
    intro rem k hk
    simp [translateSceneLoop, requestKeys] at hk
  | cons scene rest ih =>
    intro rem k hk
    simp only [translateSceneLoop] at hk
    rw [if_neg (show ¬env.aborted = true by simp [habort])] at hk
    by_cases hskip : env.options.resume = true ∧ scene.all_translated = true
    · rw [if_pos hskip] at hk
      simp only [requestKeys] at hk
      obtain ⟨sc, h1, h2, h3⟩ := ih rem k hk
      exact ⟨sc, List.mem_cons_of_mem _ h1, h2, h3⟩
    · rw [if_neg hskip] at hk
      have hall : scene.all_translated = false := by
        by_contra hc
        exact hskip ⟨hres, by simpa using hc⟩
      split at hk
      · -- error arm
        obtain ⟨b, hb, hb2, hb3⟩ := scene_keys_resume env scene _ none _ hres habort k hk
        exact ⟨scene, List.mem_cons_self _ _, hall, b, hb, hb2, hb3⟩
      · -- ok arm: match on rem
        split at hk
        · -- rem = some r
          split_ifs at hk
          · rw [requestKeys_append] at hk
            rcases List.mem_append.mp hk with h | h
            · obtain ⟨b, hb, hb2, hb3⟩ := scene_keys_resume env scene _ none _ hres habort k h
              exact ⟨scene, List.mem_cons_self _ _, hall, b, hb, hb2, hb3⟩
            · simp [requestKeys] at h
          · rw [requestKeys_append] at hk
            rcases List.mem_append.mp hk with h | h
            · obtain ⟨b, hb, hb2, hb3⟩ := scene_keys_resume env scene _ none _ hres habort k h
              exact ⟨scene, List.mem_cons_self _ _, hall, b, hb, hb2, hb3⟩
            · obtain ⟨sc, h1, h2, h3⟩ := ih _ k h
              exact ⟨sc, List.mem_cons_of_mem _ h1, h2, h3⟩
          · rw [requestKeys_append] at hk
            rcases List.mem_append.mp hk with h | h
            · obtain ⟨b, hb, hb2, hb3⟩ := scene_keys_resume env scene _ none _ hres habort k h
              exact ⟨scene, List.mem_cons_self _ _, hall, b, hb, hb2, hb3⟩
            · obtain ⟨sc, h1, h2, h3⟩ := ih _ k h
              exact ⟨sc, List.mem_cons_of_mem _ h1, h2, h3⟩
        · -- rem = none
          rw [requestKeys_append] at hk
          rcases List.mem_append.mp hk with h | h
          · obtain ⟨b, hb, hb2, hb3⟩ := scene_keys_resume env scene _ none _ hres habort k h
            exact ⟨scene, List.mem_cons_self _ _, hall, b, hb, hb2, hb3⟩
          · obtain ⟨sc, h1, h2, h3⟩ := ih _ k h
            exact ⟨sc, List.mem_cons_of_mem _ h1, h2, h3⟩


theorem runTrace_keys (env : TransEnv) (subs : Option SubtitleFile) :
    requestKeys (runTrace env subs) =
      requestKeys (translateSceneLoop env (scenesOf env subs) env.options.max_lines).2.1 := by
  cases subs with
  | none =>
    simp only [runTrace, translateSubtitles.eq_def, scenesOf.eq_def]
    split_ifs <;> simp [translateSceneLoop, requestKeys]
  | some subs0 =>
    simp only [runTrace, translateSubtitles.eq_def, scenesOf.eq_def]
    by_cases hab : env.aborted = true
    · rw [if_pos hab]
      by_cases hemp : subs0.scenes.isEmpty = true
      · simp only [hemp, if_true, ite_true]
        cases hcase : env.auto_batch () with
        | nil => simp [translateSceneLoop, requestKeys]
        | cons s rest => simp [translateSceneLoop, hab, requestKeys]
      · simp only [hemp, if_false, ite_false, Bool.false_eq_true]
        cases hcase : subs0.scenes with
        | nil => rw [hcase] at hemp; simp [List.isEmpty] at hemp
        | cons s rest => simp [translateSceneLoop, hab, requestKeys]
    · rw [if_neg hab]
      by_cases hemp : subs0.scenes.isEmpty = true
      · simp only [hemp, if_true, ite_true]
        by_cases hauto : (env.auto_batch ()).isEmpty = true
        · have hnil : env.auto_batch () = [] := by
            cases hcase : env.auto_batch () with
            | nil => rfl
            | cons s r => rw [hcase] at hauto; simp [List.isEmpty] at hauto
          simp [hnil, translateSceneLoop, requestKeys]
        · simp only [hauto, if_false, ite_false, Bool.false_eq_true]
          split <;> simp [requestKeys, requestKeys_append]
      · simp only [hemp, if_false, ite_false, Bool.false_eq_true]
        split <;> simp [requestKeys, requestKeys_append]

/-- C7: with resume mode set (and the run not aborted), (i) a scene that is
already fully translated is skipped with a log entry and no error — the loop
result is the untouched scene consed onto the result for the remaining
scenes; (ii) a batch that is already fully translated is likewise skipped
inside the batch loop; (iii) globally, every request sent to the Translation
Client during a run carries the scene/batch key of a batch that was not
fully translated (inside a scene that was not fully translated) — so an
already-translated batch is never sent to the client. -/
theorem C7_resume_skip (env : TransEnv)
    (hres : env.options.resume = true) (habort : env.aborted = false) :
    (∀ (scene : SubtitleScene) (rest : List SubtitleScene) (rem : Option Nat),
      scene.all_translated = true →
      translateSceneLoop env (scene :: rest) rem =
        (scene :: (translateSceneLoop env rest rem).1,
          TraceEv.log "Scene already translated" :: (translateSceneLoop env rest rem).2.1,
          (translateSceneLoop env rest rem).2.2)) ∧
    (∀ (ln : Option (List Nat)) (batch : SubtitleBatch) (rest : List SubtitleBatch)
        (ctx : Ctx) (rem : Option Nat),
      batch.all_translated = true →
      translateBatches env ln (batch :: rest) ctx rem =
        (batch :: (translateBatches env ln rest ctx rem).1,
          (translateBatches env ln rest ctx rem).2.1,
          TraceEv.log "batch already translated" ::
            (translateBatches env ln rest ctx rem).2.2.1,
          (translateBatches env ln rest ctx rem).2.2.2)) ∧
    (∀ (subs : Option SubtitleFile) (k : Nat × Nat),
      k ∈ requestKeys (runTrace env subs) →
      ∃ sc ∈ scenesOf env subs, sc.all_translated = false ∧
        ∃ b ∈ sc.batches, b.all_translated = false ∧ k = (b.scene, b.number)) := by
  refine ⟨?_, ?_, ?_⟩
  · intro scene rest rem hall
    rw [translateSceneLoop]
    rw [if_neg (show ¬env.aborted = true by simp [habort]), if_pos ⟨hres, hall⟩]
  · intro ln batch rest ctx rem hall
    rw [translateBatches]
    rw [if_neg (show ¬env.aborted = true by simp [habort]), if_pos ⟨hres, hall⟩]
  · intro subs k hk
    rw [runTrace_keys] at hk
    exact loop_keys_resume env hres habort _ _ k hk

theorem C7_resume_skip_witness :
    exEnvResume.options.resume = true ∧ exEnvResume.aborted = false ∧
    requestKeys (runTrace exEnvResume (some exDocResume)) = [(2, 1)] ∧
    ∃ sc ∈ scenesOf exEnvResume (some exDocResume), sc.all_translated = false ∧
      ∃ b ∈ sc.batches, b.all_translated = false ∧
        ((2 : Nat), (1 : Nat)) = (b.scene, b.number) :=
  ⟨rfl, rfl, by decide,
    (C7_resume_skip exEnvResume rfl rfl).2.2 (some exDocResume) (2, 1) (by decide)⟩


end GptSubtrans
